import Mathlib

/-!
Shallow embedding of the OpsAiX detection/analysis pipeline
(`src/agents/incident_detection_agent.py`, `src/agents/incident_analysis_agent.py`,
`src/models/incident.py`) together with models of the Python library
functions they call (`str.strip`, `json.loads`, `json.dumps`, `float`).
Machine reals are modelled by exact fractions (the clamp bounds 0.0 and
1.0 and the decimal literals of the claims are exact in both worlds),
Python `datetime` instants by `ℕ`, and Python exceptions by an explicit
error type threaded through `Except`.
-/

set_option maxRecDepth 8000

namespace OpsAiX

/-- Model of a Python float as an exact fraction: `num / den`, with `den`
positive (always a power of ten here, since values come from decimal
literals). Kept as a plain pair so that all arithmetic is `Int`/`Nat`
computation the kernel can evaluate. -/
structure PyNum where
  num : Int
  den : Nat
deriving Repr, DecidableEq

/-- Numeric comparison `a < b` by cross-multiplication (valid for positive
denominators, which all reachable values have). -/
def PyNum.lt (a b : PyNum) : Bool :=
  a.num * (b.den : Int) < b.num * (a.den : Int)

/-- Numeric comparison `a ≤ b` by cross-multiplication. -/
def PyNum.le (a b : PyNum) : Bool :=
  a.num * (b.den : Int) ≤ b.num * (a.den : Int)

/-- Numeric equality by cross-multiplication (two representations of the
same rational denote the same Python float). -/
def PyNum.eqv (a b : PyNum) : Bool :=
  a.num * (b.den : Int) = b.num * (a.den : Int)

/-- The float 0.0. -/
def PyNum.zero : PyNum := ⟨0, 1⟩

/-- The float 1.0. -/
def PyNum.one : PyNum := ⟨1, 1⟩

/-- Model of Python `min(a, b)` on floats: `b` when `b < a`, else `a`. -/
def pymin (a b : PyNum) : PyNum := if PyNum.lt b a then b else a

/-- Model of Python `max(a, b)` on floats: `b` when `a < b`, else `a`. -/
def pymax (a b : PyNum) : PyNum := if PyNum.lt a b then b else a

/-- Model of a Python value produced by `json.loads` (JSON data). -/
inductive JValue where
  | jnull
  | jbool (b : Bool)
  | jnum (q : PyNum)
  | jstr (s : String)
  | jarr (xs : List JValue)
  | jobj (fields : List (String × JValue))
deriving Repr

/-- A Python dict with string keys, in insertion order (model of JSON objects). -/
abbrev JObj := List (String × JValue)

mutual

/-- Boolean equality test on `JValue` (the derive handler does not support
this nested inductive, so the instance is built by hand). -/
def jeq : JValue → JValue → Bool
  | .jnull, .jnull => true
  | .jbool a, .jbool b => a == b
  | .jnum a, .jnum b => a == b
  | .jstr a, .jstr b => a == b
  | .jarr a, .jarr b => jeqList a b
  | .jobj a, .jobj b => jeqObj a b
  | _, _ => false

/-- Elementwise `jeq` on lists of values. -/
def jeqList : List JValue → List JValue → Bool
  | [], [] => true
  | a :: as2, b :: bs2 => jeq a b && jeqList as2 bs2
  | _, _ => false

/-- Elementwise `jeq` on object field lists. -/
def jeqObj : List (String × JValue) → List (String × JValue) → Bool
  | [], [] => true
  | (k1, v1) :: as2, (k2, v2) :: bs2 => k1 == k2 && jeq v1 v2 && jeqObj as2 bs2
  | _, _ => false

end

mutual

theorem jeq_iff : ∀ a b : JValue, jeq a b = true ↔ a = b
  | .jnull, b => by cases b <;> simp [jeq]
  | .jbool a, b => by cases b <;> simp [jeq]
  | .jnum a, b => by cases b <;> simp [jeq]
  | .jstr a, b => by cases b <;> simp [jeq]
  | .jarr a, b => by
    cases b <;> simp [jeq]
    exact jeqList_iff a _
  | .jobj a, b => by
    cases b <;> simp [jeq]
    exact jeqObj_iff a _

theorem jeqList_iff : ∀ a b : List JValue, jeqList a b = true ↔ a = b
  | [], b => by cases b <;> simp [jeqList]
  | x :: xs, [] => by simp [jeqList]
  | x :: xs, y :: ys => by
    simp [jeqList, jeq_iff x y, jeqList_iff xs ys]

theorem jeqObj_iff : ∀ a b : List (String × JValue), jeqObj a b = true ↔ a = b
  | [], b => by cases b <;> simp [jeqObj]
  | x :: xs, [] => by simp [jeqObj]
  | (k1, v1) :: xs, (k2, v2) :: ys => by
    simp [jeqObj, jeq_iff v1 v2, jeqObj_iff xs ys, and_assoc]

end

instance : DecidableEq JValue := fun a b => decidable_of_iff _ (jeq_iff a b)

instance {ε α : Type _} [DecidableEq ε] [DecidableEq α] : DecidableEq (Except ε α) := fun a b =>
  match a, b with
  | .ok x, .ok y =>
    if h : x = y then .isTrue (h ▸ rfl) else .isFalse (fun he => h (Except.ok.inj he))
  | .error x, .error y =>
    if h : x = y then .isTrue (h ▸ rfl) else .isFalse (fun he => h (Except.error.inj he))
  | .ok _, .error _ => .isFalse (fun he => Except.noConfusion he)
  | .error _, .ok _ => .isFalse (fun he => Except.noConfusion he)

/-- Model of a raised Python exception, by class and message. -/
inductive PyErr where
  | jsonDecodeError (msg : String)
  | valueError (msg : String)
  | typeError (msg : String)
  | otherError (msg : String)
deriving Repr, DecidableEq

/-- Model of Python `str(e)` on an exception. -/
def PyErr.message : PyErr → String
  | .jsonDecodeError m => m
  | .valueError m => m
  | .typeError m => m
  | .otherError m => m

/-- Model of Python `d.get(k)` on a dict: first binding for the key, if any. -/
def jget (o : JObj) (k : String) : Option JValue :=
  match o with
  | [] => none
  | (k2, v) :: rest => if k2 = k then some v else jget rest k

/-- Model of Python `d[k] = v`: replace the value of an existing key in place,
otherwise append the new binding at the end (dict insertion order). -/
def jset (o : JObj) (k : String) (v : JValue) : JObj :=
  match o with
  | [] => [(k, v)]
  | (k2, v2) :: rest => if k2 = k then (k2, v) :: rest else (k2, v2) :: jset rest k v

/-- Model of Python truthiness (`bool(v)`) on JSON-shaped values. -/
def pyTruthy : JValue → Bool
  | .jnull => false
  | .jbool b => b
  | .jnum q => !(q.num == 0)
  | .jstr s => !(s == "")
  | .jarr xs => !xs.isEmpty
  | .jobj fields => !fields.isEmpty

/-! Python string primitives used by the agents, modelled over `String.data`. -/

/-- Model of the whitespace class used by Python `str.strip()` (ASCII part). -/
def pyWs (c : Char) : Bool :=
  c = ' ' || c = '\t' || c = '\n' || c = '\r' || c = '\x0b' || c = '\x0c'

/-- Model of Python `s.strip()`: drop whitespace from both ends. -/
def pyStrip (s : String) : String :=
  ⟨((s.data.dropWhile pyWs).reverse.dropWhile pyWs).reverse⟩

/-- Model of Python `s.startswith(pre)`. -/
def pyStartsWith (s pre : String) : Bool :=
  pre.data.isPrefixOf s.data

/-- Model of Python `s.endswith(suf)`. -/
def pyEndsWith (s suf : String) : Bool :=
  suf.data.isSuffixOf s.data

/-- Model of Python `s[n:]`. -/
def pyDrop (s : String) (n : Nat) : String :=
  ⟨s.data.drop n⟩

/-- Model of Python `s[:-n]` for `n ≤ len(s)` (and of its clamp to `""` below). -/
def pyDropRight (s : String) (n : Nat) : String :=
  ⟨s.data.take (s.data.length - n)⟩

/-! Model of `json.loads`: a fuel-indexed recursive-descent parser for the
JSON grammar (whitespace, `null`, booleans, numbers, strings with the
common escapes, arrays, objects). -/

/-- Skip JSON whitespace. -/
def skipWs : List Char → List Char
  | [] => []
  | c :: cs => if c = ' ' || c = '\t' || c = '\n' || c = '\r' then skipWs cs else c :: cs

/-- Digit run to a natural number. -/
def digitsToNat (ds : List Char) : Nat :=
  ds.foldl (fun a c => a * 10 + (c.toNat - 48)) 0

/-- Parse the exponent part of a JSON/float literal, if present, scaling the
fraction `n / d` by the corresponding power of ten. -/
def parseExpPart (n : Int) (d : Nat) (cs : List Char) : Option (PyNum × List Char) :=
  match cs with
  | 'e' :: rest | 'E' :: rest =>
    let (neg, rest2) :=
      match rest with
      | '-' :: r => (true, r)
      | '+' :: r => (false, r)
      | r => (false, r)
    let ds := rest2.takeWhile Char.isDigit
    let rest3 := rest2.dropWhile Char.isDigit
    if ds = [] then none
    else
      let e := digitsToNat ds
      some (if neg then ⟨n, d * 10 ^ e⟩ else ⟨n * (10 : Int) ^ e, d⟩, rest3)
  | _ => some (⟨n, d⟩, cs)

/-- Parse a JSON number (optional minus, integer part without leading zeros,
optional fraction, optional exponent). -/
def parseNumber (cs : List Char) : Option (PyNum × List Char) :=
  let (sign, cs1) : Int × List Char :=
    match cs with
    | '-' :: rest => (-1, rest)
    | _ => (1, cs)
  let ip := cs1.takeWhile Char.isDigit
  let rest1 := cs1.dropWhile Char.isDigit
  if ip = [] then none
  else if ip.head? = some '0' && ip.length > 1 then none
  else
    match rest1 with
    | '.' :: r2 =>
      let fp := r2.takeWhile Char.isDigit
      let rest2 := r2.dropWhile Char.isDigit
      if fp = [] then none
      else do
        let (q, r) ← parseExpPart
          (sign * ((digitsToNat ip * 10 ^ fp.length + digitsToNat fp : Nat) : Int))
          (10 ^ fp.length) rest2
        pure (q, r)
    | _ => do
      let (q, r) ← parseExpPart (sign * (digitsToNat ip : Int)) 1 rest1
      pure (q, r)

/-- Unescape one JSON string escape character. -/
def unescape (c : Char) : Option Char :=
  match c with
  | '"' => some '"'
  | '\\' => some '\\'
  | '/' => some '/'
  | 'n' => some '\n'
  | 't' => some '\t'
  | 'r' => some '\r'
  | 'b' => some '\x08'
  | 'f' => some '\x0c'
  | _ => none

/-- Parse the body of a JSON string after the opening quote. -/
def parseStrChars : List Char → Option (List Char × List Char)
  | [] => none
  | '"' :: rest => some ([], rest)
  | '\\' :: c :: rest => do
    let e ← unescape c
    let (l, r) ← parseStrChars rest
    pure (e :: l, r)
  | c :: rest => do
    let (l, r) ← parseStrChars rest
    pure (c :: l, r)

mutual

/-- Parse one JSON value (fuel-indexed so the recursion is structural). -/
def parseVal : Nat → List Char → Option (JValue × List Char)
  | 0, _ => none
  | fuel + 1, cs =>
    match skipWs cs with
    | [] => none
    | 'n' :: 'u' :: 'l' :: 'l' :: r => some (.jnull, r)
    | 't' :: 'r' :: 'u' :: 'e' :: r => some (.jbool true, r)
    | 'f' :: 'a' :: 'l' :: 's' :: 'e' :: r => some (.jbool false, r)
    | '"' :: r => do
      let (l, r2) ← parseStrChars r
      pure (.jstr ⟨l⟩, r2)
    | '[' :: r =>
      (match skipWs r with
       | ']' :: r2 => some (.jarr [], r2)
       | _ => do
         let (xs, r2) ← parseArrItems fuel r
         pure (.jarr xs, r2))
    | '{' :: r =>
      (match skipWs r with
       | '}' :: r2 => some (.jobj [], r2)
       | _ => do
         let (fs, r2) ← parseObjItems fuel r
         pure (.jobj fs, r2))
    | c :: r =>
      if c = '-' || c.isDigit then do
        let (q, r2) ← parseNumber (c :: r)
        pure (.jnum q, r2)
      else none

/-- Parse the comma-separated items of a non-empty JSON array. -/
def parseArrItems : Nat → List Char → Option (List JValue × List Char)
  | 0, _ => none
  | fuel + 1, cs => do
    let (v, r) ← parseVal fuel cs
    match skipWs r with
    | ',' :: r2 => do
      let (vs, r3) ← parseArrItems fuel r2
      pure (v :: vs, r3)
    | ']' :: r2 => pure ([v], r2)
    | _ => none

/-- Parse the comma-separated members of a non-empty JSON object. -/
def parseObjItems : Nat → List Char → Option (List (String × JValue) × List Char)
  | 0, _ => none
  | fuel + 1, cs =>
    match skipWs cs with
    | '"' :: r => do
      let (k, r2) ← parseStrChars r
      match skipWs r2 with
      | ':' :: r3 => do
        let (v, r4) ← parseVal fuel r3
        match skipWs r4 with
        | ',' :: r5 => do
          let (fs, r6) ← parseObjItems fuel r5
          pure ((⟨k⟩, v) :: fs, r6)
        | '}' :: r5 => pure ([(⟨k⟩, v)], r5)
        | _ => none
      | _ => none
    | _ => none

end

/-- Model of Python `json.loads`: parse a complete JSON document or raise
`json.JSONDecodeError`. -/
def json_loads (s : String) : Except PyErr JValue :=
  match parseVal (s.length + 1) s.data with
  | some (v, rest) =>
    if skipWs rest = [] then .ok v
    else .error (.jsonDecodeError "Extra data")
  | none => .error (.jsonDecodeError "Expecting value")

/-- Parse the body of a Python float literal (`float(str)` grammar subset:
optional sign, digits with optional fraction, optional exponent). -/
def parseFloatBody (cs : List Char) : Option PyNum :=
  let (sign, cs1) : Int × List Char :=
    match cs with
    | '-' :: r => (-1, r)
    | '+' :: r => (1, r)
    | _ => (1, cs)
  let ip := cs1.takeWhile Char.isDigit
  let rest1 := cs1.dropWhile Char.isDigit
  match rest1 with
  | '.' :: r2 =>
    let fp := r2.takeWhile Char.isDigit
    let rest2 := r2.dropWhile Char.isDigit
    if ip = [] && fp = [] then none
    else do
      let (q, r) ← parseExpPart
        (sign * ((digitsToNat ip * 10 ^ fp.length + digitsToNat fp : Nat) : Int))
        (10 ^ fp.length) rest2
      if r = [] then some q else none
  | _ =>
    if ip = [] then none
    else do
      let (q, r) ← parseExpPart (sign * (digitsToNat ip : Int)) 1 rest1
      if r = [] then some q else none

/-- Model of Python `float(v)` on a JSON-shaped value: numbers pass through,
booleans become 0.0/1.0, numeric strings are parsed (`ValueError` otherwise),
and `None`/lists/dicts raise `TypeError`. -/
def pyFloat : JValue → Except PyErr PyNum
  | .jnum q => .ok q
  | .jbool b => .ok (if b then PyNum.one else PyNum.zero)
  | .jstr s =>
    match parseFloatBody (pyStrip s).data with
    | some q => .ok q
    | none => .error (.valueError ("could not convert string to float: " ++ s))
  | .jnull => .error (.typeError "float() argument must be a string or a real number, not NoneType")
  | .jarr _ => .error (.typeError "float() argument must be a string or a real number, not list")
  | .jobj _ => .error (.typeError "float() argument must be a string or a real number, not dict")

/-! Model of the response validators
(`IncidentDetectionAgent._parse_detection_result`, lines 162-192, and
`IncidentAnalysisAgent._parse_analysis_result`, lines 216-255). -/

/-- The code-fence preprocessing shared by both validators:
`response.strip()`, then drop a leading 7-character marker when the text
starts with a json code fence, then drop a trailing 3-character marker when
it ends with a fence. -/
def stripFences (response : String) : String :=
  let r := pyStrip response
  let r2 := if pyStartsWith r "```json" then pyDrop r 7 else r
  if pyEndsWith r2 "```" then pyDropRight r2 3 else r2

/-- Backfill loop of the detection validator: for each of
`incident_detected`, `confidence_score` (in that order), insert a
type-appropriate default when the key is absent. -/
def backfillRequired (r : JObj) : JObj :=
  let r1 := if (jget r "incident_detected").isSome then r
            else jset r "incident_detected" (.jbool false)
  if (jget r1 "confidence_score").isSome then r1
  else jset r1 "confidence_score" (.jnum PyNum.zero)

/-- The canonical failure mapping of the detection validator, in the dict
order of the source literal. -/
def detParseFailure (msg resp : String) : JObj :=
  [("incident_detected", .jbool false),
   ("confidence_score", .jnum PyNum.zero),
   ("parse_error", .jstr msg),
   ("raw_response", .jstr resp)]

/-- The field-validation step the detection validator runs on the parsed
JSON value: backfill the required fields, then clamp the confidence score
through `float()`; a non-dict parse result raises at the first
`field not in result` / item-assignment (`TypeError`-class fault). -/
def detValidateParsed (v : JValue) : Except PyErr JObj :=
  match v with
  | .jobj fields => do
    let r := backfillRequired fields
    let q ← pyFloat ((jget r "confidence_score").getD (.jnum PyNum.zero))
    pure (jset r "confidence_score" (.jnum (pymax PyNum.zero (pymin PyNum.one q))))
  | _ => .error (.typeError "validated fields require a dict result")

/-- The `except (json.JSONDecodeError, ValueError)` clause shared by both
validators: those two exception classes are absorbed into the failure
mapping built from their message; any other raised exception propagates. -/
def absorbDV (att : Except PyErr JObj) (fail : String → JObj) : Except PyErr JObj :=
  match att with
  | .ok r => .ok r
  | .error (.jsonDecodeError m) => .ok (fail m)
  | .error (.valueError m) => .ok (fail m)
  | .error e => .error e

/-- Model of `IncidentDetectionAgent._parse_detection_result`: strip fences,
`json.loads`, backfill required fields, clamp the confidence score through
`float()`; `json.JSONDecodeError`/`ValueError` are absorbed into the failure
mapping, any other raised exception propagates. -/
def parse_detection_result (response : String) : Except PyErr JObj :=
  let resp := stripFences response
  absorbDV (json_loads (pyStrip resp) >>= detValidateParsed) (fun m => detParseFailure m resp)

/-- The five expected top-level sections of an analysis result. -/
def anaSections : List String :=
  ["root_cause_analysis", "impact_assessment", "remediation_plan",
   "prevention_measures", "escalation_recommendation"]

/-- The placeholder object inserted for a missing analysis section. -/
def anaIncomplete : JValue := .jobj [("status", .jstr "analysis_incomplete")]

/-- Backfill loop of the analysis validator over the expected sections. -/
def backfillSections (r : JObj) : List String → JObj
  | [] => r
  | s :: rest =>
    backfillSections (if (jget r s).isSome then r else jset r s anaIncomplete) rest

/-- The canonical failure mapping of the analysis validator, in the dict
order of the source literal. -/
def anaParseFailure (msg resp : String) : JObj :=
  [("parse_error", .jstr msg),
   ("raw_response", .jstr resp),
   ("confidence_score", .jnum PyNum.zero),
   ("root_cause_analysis", .jobj [("status", .jstr "parse_failed")]),
   ("impact_assessment", .jobj [("status", .jstr "parse_failed")]),
   ("remediation_plan", .jobj [("status", .jstr "parse_failed")]),
   ("prevention_measures", .jobj [("status", .jstr "parse_failed")]),
   ("escalation_recommendation", .jobj [("status", .jstr "parse_failed")])]

/-- The structure-validation step the analysis validator runs on the
parsed JSON value: backfill the five sections and default the confidence
score to 0.5 when absent (no clamp); a non-dict parse result raises. -/
def anaValidateParsed (v : JValue) : Except PyErr JObj :=
  match v with
  | .jobj fields =>
    let r := backfillSections fields anaSections
    pure (if (jget r "confidence_score").isSome then r
          else jset r "confidence_score" (.jnum ⟨5, 10⟩))
  | _ => .error (.typeError "validated fields require a dict result")

/-- Model of `IncidentAnalysisAgent._parse_analysis_result`: strip fences,
`json.loads`, backfill the five sections, default the confidence score to
0.5 when absent (no clamp); decode/value errors are absorbed into the
failure mapping, other raised exceptions propagate. -/
def parse_analysis_result (response : String) : Except PyErr JObj :=
  let resp := stripFences response
  absorbDV (json_loads (pyStrip resp) >>= anaValidateParsed) (fun m => anaParseFailure m resp)

/-! Domain entities (`src/models/log_entry.py`, `src/models/alert.py`,
`src/models/incident.py`). `datetime` instants are modelled by `ℕ`
(microseconds on some epoch); what matters to the claims is only their
identity and order. -/

/-- Model of a `datetime` instant. -/
abbrev Time := Nat

/-- A Python value stored in a free-form dict; either JSON-serializable
data or an arbitrary object kept by its `str()` rendering (which is what
`json.dumps(..., default=str)` uses for it). -/
inductive PyVal where
  | json (j : JValue)
  | blob (strRep : String)
deriving Repr

/-- A free-form Python dict with string keys. -/
abbrev PyDict := List (String × PyVal)

/-- Log level enumeration of `log_entry.py`. -/
inductive LogLevel where
  | debug | info | warn | error | fatal
deriving Repr, DecidableEq

/-- Enum value string of a `LogLevel`. -/
def LogLevel.value : LogLevel → String
  | .debug => "debug"
  | .info => "info"
  | .warn => "warn"
  | .error => "error"
  | .fatal => "fatal"

/-- Log entry data model of `log_entry.py`. -/
structure LogEntry where
  id : String
  timestamp : Time
  level : LogLevel
  message : String
  source : String
  hostname : Option String := none
  service_name : Option String := none
  fields : PyDict := []
  exception : Option String := none
  stack_trace : Option String := none
  parsed_at : Time
  processed : Bool := false
deriving Repr

/-- Alert severity enumeration of `alert.py`. -/
inductive AlertSeverity where
  | critical | warning | info
deriving Repr, DecidableEq

/-- Enum value string of an `AlertSeverity`. -/
def AlertSeverity.value : AlertSeverity → String
  | .critical => "critical"
  | .warning => "warning"
  | .info => "info"

/-- Alert data model of `alert.py`. -/
structure Alert where
  id : String
  title : String
  message : String
  severity : AlertSeverity
  source : String
  source_id : Option String := none
  timestamp : Time
  resolved_at : Option Time := none
  category : Option String := none
  component : Option String := none
  is_resolved : Bool := false
  is_acknowledged : Bool := false
  labels : List (String × String) := []
  annotations : List (String × String) := []
  incident_id : Option String := none
deriving Repr

/-- Incident severity enumeration of `incident.py`. -/
inductive IncidentSeverity where
  | critical | high | medium | low
deriving Repr, DecidableEq

/-- Incident status enumeration of `incident.py`. -/
inductive IncidentStatus where
  | new | in_progress | investigating | resolved | closed
deriving Repr, DecidableEq

/-- Incident data model of `incident.py`. -/
structure Incident where
  id : String
  title : String
  description : String
  severity : IncidentSeverity
  status : IncidentStatus := .new
  created_at : Time
  updated_at : Time
  resolved_at : Option Time := none
  assigned_to : Option String := none
  reporter : Option String := none
  affected_service : Option String := none
  affected_components : List String := []
  jira_ticket_id : Option String := none
  slack_thread_id : Option String := none
  root_cause : Option String := none
  resolution_summary : Option String := none
  tags : List String := []
  metadata : JObj := []
deriving Repr, DecidableEq

/-- Model of `Incident.update_status`: set the status, refresh `updated_at`
to the current instant `now`, and set `resolved_at` when the new status is
`resolved` and an explicit (truthy) resolved timestamp was passed. -/
def Incident.update_status (i : Incident) (status : IncidentStatus)
    (resolved_at : Option Time) (now : Time) : Incident :=
  let i2 := { i with status := status, updated_at := now }
  if status = .resolved && resolved_at.isSome then { i2 with resolved_at := resolved_at }
  else i2

/-- Model of `Incident.add_tag`: append the tag and refresh `updated_at`,
but only when the tag is not already in the list. -/
def Incident.add_tag (i : Incident) (tag : String) (now : Time) : Incident :=
  if tag ∈ i.tags then i
  else { i with tags := i.tags ++ [tag], updated_at := now }

/-- Model of `Incident.set_jira_ticket`: set the ticket id and refresh
`updated_at`. -/
def Incident.set_jira_ticket (i : Incident) (ticket_id : String) (now : Time) : Incident :=
  { i with jira_ticket_id := some ticket_id, updated_at := now }

/-- Model of `Incident.set_slack_thread`: set the thread id and refresh
`updated_at`. -/
def Incident.set_slack_thread (i : Incident) (thread_id : String) (now : Time) : Incident :=
  { i with slack_thread_id := some thread_id, updated_at := now }

/-! Model of `json.dumps` (as used with `default=str`) and of Python
`sep.join(...)`. The exact rendering of numbers and timestamps is a model
choice; no claim inspects it — what the claims use is that serialization
is total. -/

/-- Model of Python `sep.join(pieces)`. -/
def pyJoin (sep : String) : List String → String
  | [] => ""
  | [x] => x
  | x :: y :: rest => x ++ sep ++ pyJoin sep (y :: rest)

/-- JSON string escaping used when dumping strings. -/
def jsonEscape (s : String) : String :=
  ⟨s.data.foldr (fun c acc =>
    (if c = '"' then ['\\', '"']
     else if c = '\\' then ['\\', '\\']
     else if c = '\n' then ['\\', 'n']
     else if c = '\t' then ['\\', 't']
     else if c = '\r' then ['\\', 'r']
     else [c]) ++ acc) []⟩

/-- Dump a quoted JSON string. -/
def dumpStr (s : String) : String := "\"" ++ jsonEscape s ++ "\""

/-- Rendering of a model float (model stand-in for Python float repr). -/
def numToStr (q : PyNum) : String :=
  if q.den = 1 then toString q.num else toString q.num ++ "/" ++ toString q.den

/-- Rendering of a model instant (model stand-in for `str(datetime)`). -/
def timeToStr (t : Time) : String := toString t

mutual

/-- Compact `json.dumps` of a JSON value (separators `", "` and `": "`). -/
def dumpJ : JValue → String
  | .jnull => "null"
  | .jbool b => if b then "true" else "false"
  | .jnum q => numToStr q
  | .jstr s => dumpStr s
  | .jarr xs => "[" ++ pyJoin ", " (dumpJList xs) ++ "]"
  | .jobj fields => "\x7b" ++ pyJoin ", " (dumpJObj fields) ++ "\x7d"

/-- Dump the items of a JSON array. -/
def dumpJList : List JValue → List String
  | [] => []
  | x :: xs => dumpJ x :: dumpJList xs

/-- Dump the members of a JSON object. -/
def dumpJObj : List (String × JValue) → List String
  | [] => []
  | (k, v) :: rest => (dumpStr k ++ ": " ++ dumpJ v) :: dumpJObj rest

end

/-- Dump one free-form dict value; a non-serializable object goes through
`default=str` and is dumped as its string rendering. -/
def dumpPyVal : PyVal → String
  | .json j => dumpJ j
  | .blob s => dumpStr s

/-- Model of `json.dumps(d, default=str)` on a free-form dict (compact). -/
def pyDumpsCompact (d : PyDict) : String :=
  "\x7b" ++ pyJoin ", " (d.map fun kv => dumpStr kv.1 ++ ": " ++ dumpPyVal kv.2) ++ "\x7d"

/-- Model of `json.dumps(d, default=str, indent=2)` restricted to
string-keyed dicts, on which the call always succeeds (top-level two-space
indentation; an empty dict renders as the bare braces, as in Python). The
real call is partial — `default=` applies only to values, so a
non-coercible key raises `TypeError` — which `pyDumpsRawIndent` below
models over the unrestricted key domain. -/
def pyDumpsIndent (d : PyDict) : String :=
  if d.isEmpty then "\x7b\x7d"
  else
    "\x7b\n  " ++ pyJoin ",\n  " (d.map fun kv => dumpStr kv.1 ++ ": " ++ dumpPyVal kv.2)
      ++ "\n\x7d"

/-- Model of `json.dumps(labels)` on a string-to-string dict. -/
def pyDumpsStrDict (d : List (String × String)) : String :=
  "\x7b" ++ pyJoin ", " (d.map fun kv => dumpStr kv.1 ++ ": " ++ dumpStr kv.2) ++ "\x7d"

/-! Model of `IncidentDetectionAgent._normalize_input_data`
(lines 124-160): polymorphic dispatch on the input's runtime type. -/

/-- The supported input variants of the detection agent, as a tagged union
(the Python code branches on `isinstance`). -/
inductive InputData where
  | str (s : String)
  | log (e : LogEntry)
  | alert (a : Alert)
  | list (xs : List InputData)
  | dict (d : PyDict)
  | other (strRep : String)
deriving Repr

/-- Python `x or 'None'` on an optional string (`None` and `""` are falsy). -/
def orNone : Option String → String
  | none => "None"
  | some s => if s = "" then "None" else s

/-- Rendering of a `LogEntry` in the fixed multi-line layout of the source
f-string. -/
def renderLogEntry (e : LogEntry) : String :=
  "LOG ENTRY:\nTimestamp: " ++ timeToStr e.timestamp ++
  "\nLevel: " ++ e.level.value ++
  "\nSource: " ++ e.source ++
  "\nMessage: " ++ e.message ++
  "\nFields: " ++ pyDumpsCompact e.fields ++
  "\nException: " ++ orNone e.exception ++ "\n"

/-- Rendering of an `Alert` in the fixed multi-line layout of the source
f-string. -/
def renderAlert (a : Alert) : String :=
  "ALERT:\nTitle: " ++ a.title ++
  "\nSeverity: " ++ a.severity.value ++
  "\nMessage: " ++ a.message ++
  "\nSource: " ++ a.source ++
  "\nTimestamp: " ++ timeToStr a.timestamp ++
  "\nLabels: " ++ pyDumpsStrDict a.labels ++ "\n"

mutual

/-- Model of `_normalize_input_data` restricted to inputs whose mappings
are string-keyed (on which `json.dumps` always succeeds): raw strings pass
through, structured records render to fixed layouts, sequences recursively
normalize their first 50 elements joined by the separator, mappings
serialize as indented JSON, anything else stringifies. The unrestricted
model is `normalize_input_raw` below, where the dict branch can raise;
`normalize_inj` proves this function is exactly its string-keyed
restriction. -/
def normalize_input_data : InputData → String
  | .str s => s
  | .log e => renderLogEntry e
  | .alert a => renderAlert a
  | .list xs => pyJoin "\n\n---\n\n" (normalizeFirst 50 xs)
  | .dict d => pyDumpsIndent d
  | .other r => r

/-- The `for item in input_data[:50]` loop: normalize the first `n`
elements in order. -/
def normalizeFirst : Nat → List InputData → List String
  | _, [] => []
  | 0, _ :: _ => []
  | n + 1, x :: xs => normalize_input_data x :: normalizeFirst n xs

end

/-! The unrestricted normalizer. Python dict keys need not be strings, and
`json.dumps`'s `default=` hook applies only to values, never to keys: a
key outside str/int/float/bool/None raises `TypeError` (and only those
four non-str types are silently coerced to strings). The following model
carries the full key domain, so serialization — and with it `normalize` —
is fallible, exactly as in the code. -/

/-- A Python dict key, tagged by the runtime types `json.dumps`
distinguishes: strings pass through, int/float/bool/None are coerced to
string keys, and any other type (e.g. a tuple) makes `json.dumps` raise
`TypeError`. -/
inductive PyKey where
  | kstr (s : String)
  | kint (n : Int)
  | kfloat (q : PyNum)
  | kbool (b : Bool)
  | knone
  | kother (typeName : String)
deriving Repr, DecidableEq

/-- Key serialization of `json.dumps`: coercible keys render as quoted
strings, anything else raises `TypeError`. -/
def dumpKey : PyKey → Except PyErr String
  | .kstr s => .ok (dumpStr s)
  | .kint n => .ok ("\"" ++ toString n ++ "\"")
  | .kfloat q => .ok ("\"" ++ numToStr q ++ "\"")
  | .kbool b => .ok (if b then "\"true\"" else "\"false\"")
  | .knone => .ok "\"null\""
  | .kother t => .error (.typeError ("keys must be str, int, float, bool or None, not " ++ t))

/-- Whether a key is serializable by `json.dumps`. -/
def dumpableKey : PyKey → Bool
  | .kother _ => false
  | _ => true

/-- A free-form Python value as `json.dumps(default=str)` sees it:
JSON-primitive data, nested dicts (whose keys may be bad), nested lists,
or a non-serializable leaf that `default=str` stringifies. -/
inductive RawVal where
  | json (j : JValue)
  | rdict (d : List (PyKey × RawVal))
  | rlist (xs : List RawVal)
  | blob (strRep : String)
deriving Repr

mutual

/-- Fallible `json.dumps(v, default=str)` on a free-form value: recursing
into containers, raising on the first non-coercible dict key. -/
def pyDumpsRawVal : RawVal → Except PyErr String
  | .json j => .ok (dumpJ j)
  | .blob s => .ok (dumpStr s)
  | .rlist xs => do
    let ps ← dumpRawList xs
    pure ("[" ++ pyJoin ", " ps ++ "]")
  | .rdict d => do
    let ps ← dumpRawObj d
    pure ("\x7b" ++ pyJoin ", " ps ++ "\x7d")

/-- Dump the items of a free-form list, left to right. -/
def dumpRawList : List RawVal → Except PyErr (List String)
  | [] => .ok []
  | x :: xs => do
    let s ← pyDumpsRawVal x
    let rest ← dumpRawList xs
    pure (s :: rest)

/-- Dump the members of a free-form dict, left to right; the first
non-coercible key raises. -/
def dumpRawObj : List (PyKey × RawVal) → Except PyErr (List String)
  | [] => .ok []
  | (k, v) :: rest => do
    let ks ← dumpKey k
    let vs ← pyDumpsRawVal v
    let rs ← dumpRawObj rest
    pure ((ks ++ ": " ++ vs) :: rs)

end

/-- Fallible model of `json.dumps(d, default=str, indent=2)` over the full
key domain. -/
def pyDumpsRawIndent (d : List (PyKey × RawVal)) : Except PyErr String :=
  if d.isEmpty then .ok "\x7b\x7d"
  else do
    let ps ← dumpRawObj d
    pure ("\x7b\n  " ++ pyJoin ",\n  " ps ++ "\n\x7d")

/-- The detection agent's input variants over the unrestricted mapping
domain (pydantic already forces the `fields`/`labels` mappings of
structured records to string keys, but the raw dict branch of
`_normalize_input_data` receives arbitrary Python dicts). -/
inductive RawInput where
  | str (s : String)
  | log (e : LogEntry)
  | alert (a : Alert)
  | list (xs : List RawInput)
  | dict (d : List (PyKey × RawVal))
  | other (strRep : String)
deriving Repr

mutual

/-- Model of `_normalize_input_data` over the unrestricted input domain:
identical to `normalize_input_data` except that the dict branch runs the
fallible `json.dumps`, whose `TypeError` on a non-coercible key
propagates out of `normalize`. -/
def normalize_input_raw : RawInput → Except PyErr String
  | .str s => .ok s
  | .log e => .ok (renderLogEntry e)
  | .alert a => .ok (renderAlert a)
  | .list xs => do
    let ps ← rawNormalizeFirst 50 xs
    pure (pyJoin "\n\n---\n\n" ps)
  | .dict d => pyDumpsRawIndent d
  | .other r => .ok r

/-- The `for item in input_data[:50]` loop over the unrestricted domain;
the first raising element propagates. -/
def rawNormalizeFirst : Nat → List RawInput → Except PyErr (List String)
  | _, [] => .ok []
  | 0, _ :: _ => .ok []
  | n + 1, x :: xs => do
    let s ← normalize_input_raw x
    let rest ← rawNormalizeFirst n xs
    pure (s :: rest)

end

/-- Embed a string-keyed dict value into the unrestricted domain. -/
def injVal : PyVal → RawVal
  | .json j => .json j
  | .blob s => .blob s

/-- Embed a string-keyed dict into the unrestricted domain. -/
def injDict (d : PyDict) : List (PyKey × RawVal) :=
  d.map fun kv => (PyKey.kstr kv.1, injVal kv.2)

mutual

/-- Embed a string-keyed input into the unrestricted domain. -/
def injInput : InputData → RawInput
  | .str s => .str s
  | .log e => .log e
  | .alert a => .alert a
  | .list xs => .list (injList xs)
  | .dict d => .dict (injDict d)
  | .other r => .other r

/-- Embed a list of string-keyed inputs. -/
def injList : List InputData → List RawInput
  | [] => []
  | x :: xs => injInput x :: injList xs

end

mutual

/-- All dict keys reachable inside a value are serializable. -/
def goodVal : RawVal → Bool
  | .json _ => true
  | .blob _ => true
  | .rlist xs => goodValList xs
  | .rdict d => goodValObj d

/-- `goodVal` over a list of values. -/
def goodValList : List RawVal → Bool
  | [] => true
  | x :: xs => goodVal x && goodValList xs

/-- All keys of a dict are serializable, and so are those inside its
values. -/
def goodValObj : List (PyKey × RawVal) → Bool
  | [] => true
  | (k, v) :: rest => dumpableKey k && goodVal v && goodValObj rest

end

mutual

/-- All dict keys reachable inside an input are serializable. -/
def goodInput : RawInput → Bool
  | .str _ => true
  | .log _ => true
  | .alert _ => true
  | .list xs => goodInputList xs
  | .dict d => goodValObj d
  | .other _ => true

/-- `goodInput` over a list of inputs. -/
def goodInputList : List RawInput → Bool
  | [] => true
  | x :: xs => goodInput x && goodInputList xs

end

/-! Model of `BaseAgent._create_context_summary` (base_agent.py, lines
75-89) over a tagged union of the runtime types the code inspects. -/

/-- A context dict value, tagged by the runtime type the summarizer
branches on. -/
inductive CtxVal where
  | vstr (s : String)
  | vint (n : Int)
  | vfloat (q : PyNum)
  | vbool (b : Bool)
  | vlist (xs : List CtxVal)
  | vdict (d : List (String × CtxVal))
  | vother (typeName : String)
deriving Repr

/-- A context mapping as passed to `process`. -/
abbrev Ctx := List (String × CtxVal)

/-- Python `f-string` rendering of a scalar context value. -/
def ctxScalarStr : CtxVal → String
  | .vstr s => s
  | .vint n => toString n
  | .vfloat q => numToStr q
  | .vbool b => if b then "True" else "False"
  | .vlist _ => ""
  | .vdict _ => ""
  | .vother _ => ""

/-- One summary line per context key: scalars render their value,
sequences/mappings render type name and item count, anything else renders
its type name. -/
def ctxLine (k : String) (v : CtxVal) : String :=
  match v with
  | .vlist xs => "- " ++ k ++ ": list with " ++ toString xs.length ++ " items"
  | .vdict d => "- " ++ k ++ ": dict with " ++ toString d.length ++ " items"
  | .vother t => "- " ++ k ++ ": " ++ t
  | v2 => "- " ++ k ++ ": " ++ ctxScalarStr v2

/-- Model of `_create_context_summary`: a fixed sentence for a missing or
empty context, else one line per key. -/
def create_context_summary (ctx : Option Ctx) : String :=
  match ctx with
  | none => "No additional context provided."
  | some d =>
    if d.isEmpty then "No additional context provided."
    else "Context:\n" ++ pyJoin "\n" (d.map fun kv => ctxLine kv.1 kv.2)

/-- Model of `BaseAgent.get_system_prompt`. -/
def get_system_prompt (name : String) : String :=
  "You are " ++ name ++ ", an AI agent specialized in incident response and operations management.\n\nYou are part of OpsAiX, an enterprise-grade incident response platform. Your role is to:\n1. Analyze operational data (logs, metrics, alerts)\n2. Detect and classify incidents\n3. Provide actionable recommendations\n4. Communicate findings clearly and concisely\n\nAlways be precise, factual, and focus on actionable insights."

/-- Model of `detection_prompt.format(data=..., context=...)`: the fixed
template filled with the normalized data and the context summary. -/
def detectionPromptContent (data context : String) : String :=
  "\nAnalyze the following operational data for potential incidents.\n\n"
  ++ context
  ++ "\n\nData to analyze:\n"
  ++ data
  ++ "\n\nYour task:\n1. Identify if there are any incidents that require immediate attention\n2. Classify the severity level (critical, high, medium, low)\n3. Determine the affected service/component\n4. Suggest initial response actions\n\nRespond in JSON format:\n\x7b\n    \"incident_detected\": boolean,\n    \"confidence_score\": float (0.0-1.0),\n    \"severity\": \"critical|high|medium|low\",\n    \"title\": \"Brief incident title\",\n    \"description\": \"Detailed description of the issue\",\n    \"affected_service\": \"Service or component name\",\n    \"affected_components\": [\"component1\", \"component2\"],\n    \"recommended_actions\": [\"action1\", \"action2\"],\n    \"urgency_reasons\": [\"reason1\", \"reason2\"],\n    \"tags\": [\"tag1\", \"tag2\"]\n\x7d\n\nFocus on:\n- Error patterns and anomalies\n- Service availability issues  \n- Performance degradation\n- Security concerns\n- Resource exhaustion\n"

/-! Model of `IncidentDetectionAgent._create_incident_from_detection`
(lines 194-227): entity construction from a validated detection result,
including the pydantic field validation run by the `Incident(...)` call. -/

/-- Zero-padded 6-digit rendering of the creation instant's microsecond
component (the `{microsecond:06d}` format). -/
def pad6 (n : Nat) : String :=
  let s := toString n
  ⟨List.replicate (6 - s.length) '0'⟩ ++ s

/-- The fixed 4-entry severity table of the source's `severity_map`
literal, with the `.get` fallback to `medium` for unknown keys. -/
def severityTable (s : String) : IncidentSeverity :=
  if s = "critical" then .critical
  else if s = "high" then .high
  else if s = "medium" then .medium
  else if s = "low" then .low
  else .medium

/-- Model of `severity_map.get(key, IncidentSeverity.MEDIUM)`: string keys
go through the fixed table; any other hashable key falls back to `medium`;
an unhashable key (list/dict) raises `TypeError` inside `dict.get`. -/
def severityMapGet : JValue → Except PyErr IncidentSeverity
  | .jstr s => .ok (severityTable s)
  | .jarr _ => .error (.typeError "unhashable type: list")
  | .jobj _ => .error (.typeError "unhashable type: dict")
  | _ => .ok .medium

/-- Pydantic validation of a `str` field whose value came from
`result.get(key, fallback)`: absent means the fallback, a present value
must be a string. -/
def reqStrField (o : JObj) (k fallback : String) : Except PyErr String :=
  match jget o k with
  | none => .ok fallback
  | some (.jstr s) => .ok s
  | some _ => .error (.otherError ("validation error for Incident: " ++ k ++ " must be a string"))

/-- Pydantic validation of an `Optional[str]` field from `result.get(key)`. -/
def optStrField (o : JObj) (k : String) : Except PyErr (Option String) :=
  match jget o k with
  | none => .ok none
  | some .jnull => .ok none
  | some (.jstr s) => .ok (some s)
  | some _ => .error (.otherError ("validation error for Incident: " ++ k ++ " must be a string or None"))

/-- Pydantic validation of one element of a `List[str]` field. -/
def strItemField (k : String) : JValue → Except PyErr String
  | .jstr s => .ok s
  | _ => .error (.otherError ("validation error for Incident: " ++ k ++ " items must be strings"))

/-- Pydantic validation of a `List[str]` field from `result.get(key, [])`. -/
def strListField (o : JObj) (k : String) : Except PyErr (List String) :=
  match jget o k with
  | none => .ok []
  | some (.jarr xs) => xs.mapM (strItemField k)
  | some _ => .error (.otherError ("validation error for Incident: " ++ k ++ " must be a list"))

/-- Model of `_create_incident_from_detection`: id from the creation
instant, severity via the fixed table, fixed fallback title/description,
`new` status, verbatim components/tags, and the metadata mapping carrying
confidence, recommendations, urgency reasons and the agent name. -/
def create_incident_from_detection (r : JObj) (dateStr : String) (micro : Nat)
    (now : Time) : Except PyErr Incident := do
  let incident_id := "INC-" ++ dateStr ++ "-" ++ pad6 micro
  let severity ← severityMapGet ((jget r "severity").getD (.jstr "medium"))
  let title ← reqStrField r "title" "Detected Incident"
  let description ← reqStrField r "description" "Incident detected by AI analysis"
  let affected_service ← optStrField r "affected_service"
  let affected_components ← strListField r "affected_components"
  let tags ← strListField r "tags"
  pure
    { id := incident_id
      title := title
      description := description
      severity := severity
      status := .new
      created_at := now
      updated_at := now
      affected_service := affected_service
      affected_components := affected_components
      tags := tags
      metadata :=
        [("detection_confidence", (jget r "confidence_score").getD (.jnum PyNum.zero)),
         ("recommended_actions", (jget r "recommended_actions").getD (.jarr [])),
         ("urgency_reasons", (jget r "urgency_reasons").getD (.jarr [])),
         ("detected_by", .jstr "IncidentDetectionAgent")] }

/-! Model of `IncidentDetectionAgent.process` (lines 62-122): the
orchestrator. The one external collaborator, the LLM call, enters as an
`Except PyErr String` parameter (its response text or its raised fault);
the creation/processing instants enter as explicit parameters. -/

/-- The result envelope returned by the detection orchestrator. `error` is
`none` on the success path (the Python success dict has no `error` key). -/
structure DetEnvelope where
  error : Option String
  detection_result : JObj
  incident : Option Incident
  processed_at : String
  agent : String
deriving Repr, DecidableEq

/-- The `try` body of `IncidentDetectionAgent.process`: normalize,
summarize context, build the prompt, await the model, validate the
response, and conditionally (on the truthiness of `incident_detected`)
build the incident entity. Any raised fault surfaces as `.error`. -/
def detectionBody (input : InputData) (ctx : Option Ctx) (llm : Except PyErr String)
    (dateStr : String) (micro : Nat) (now : Time) :
    Except PyErr (JObj × Option Incident) := do
  let processed_data := normalize_input_data input
  let context_str := create_context_summary ctx
  let _prompt := detectionPromptContent processed_data context_str
  let _sys := get_system_prompt "IncidentDetectionAgent"
  let response ← llm
  let detection_result ← parse_detection_result response
  let incident ←
    if pyTruthy ((jget detection_result "incident_detected").getD (.jbool false)) then do
      let i ← create_incident_from_detection detection_result dateStr micro now
      pure (some i)
    else
      pure (none : Option Incident)
  pure (detection_result, incident)

/-- Model of `IncidentDetectionAgent.process`: run the body and catch every
raised fault at the boundary, converting it into the error envelope. -/
def detectionProcess (input : InputData) (ctx : Option Ctx) (llm : Except PyErr String)
    (dateStr : String) (micro : Nat) (now : Time) (procAt : String) : DetEnvelope :=
  match detectionBody input ctx llm dateStr micro now with
  | .ok (r, inc) =>
    { error := none, detection_result := r, incident := inc,
      processed_at := procAt, agent := "IncidentDetectionAgent" }
  | .error e =>
    { error := some e.message
      detection_result := [("incident_detected", .jbool false), ("confidence_score", .jnum PyNum.zero)]
      incident := none
      processed_at := procAt
      agent := "IncidentDetectionAgent" }

/-! Model of `IncidentAnalysisAgent` (incident_analysis_agent.py): input
normalization, additional-data rendering, id extraction and the
orchestrator. -/

/-- Enum value string of an `IncidentSeverity`. -/
def IncidentSeverity.value : IncidentSeverity → String
  | .critical => "critical"
  | .high => "high"
  | .medium => "medium"
  | .low => "low"

/-- Enum value string of an `IncidentStatus`. -/
def IncidentStatus.value : IncidentStatus → String
  | .new => "new"
  | .in_progress => "in_progress"
  | .investigating => "investigating"
  | .resolved => "resolved"
  | .closed => "closed"

/-- Python `x or default` on an optional string. -/
def orDefault (o : Option String) (dflt : String) : String :=
  match o with
  | none => dflt
  | some s => if s = "" then dflt else s

/-- Indented `json.dumps` of a JSON object (used for incident metadata). -/
def pyDumpsIndentJ (o : JObj) : String :=
  pyDumpsIndent (o.map fun kv => (kv.1, .json kv.2))

/-- The supported input variants of the analysis agent. -/
inductive AnalysisInput where
  | incident (i : Incident)
  | dict (d : JObj)
  | other (strRep : String)
deriving Repr

/-- Model of `_normalize_incident_data`: an `Incident` renders to the fixed
multi-line layout, a dict serializes as indented JSON, anything else
stringifies. -/
def normalize_incident_data : AnalysisInput → String
  | .incident i =>
    "\nID: " ++ i.id ++
    "\nTitle: " ++ i.title ++
    "\nDescription: " ++ i.description ++
    "\nSeverity: " ++ i.severity.value ++
    "\nStatus: " ++ i.status.value ++
    "\nCreated: " ++ timeToStr i.created_at ++
    "\nUpdated: " ++ timeToStr i.updated_at ++
    "\nAffected Service: " ++ orDefault i.affected_service "Unknown" ++
    "\nAffected Components: " ++
      (if i.affected_components.isEmpty then "None" else pyJoin ", " i.affected_components) ++
    "\nAssigned To: " ++ orDefault i.assigned_to "Unassigned" ++
    "\nTags: " ++ (if i.tags.isEmpty then "None" else pyJoin ", " i.tags) ++
    "\nJIRA Ticket: " ++ orDefault i.jira_ticket_id "None" ++
    "\nMetadata: " ++ pyDumpsIndentJ i.metadata ++ "\n"
  | .dict d => pyDumpsIndentJ d
  | .other s => s

/-- Model of `_extract_incident_id`: the incident's own id, or the `id`
value of a dict input (whatever JSON value it holds), else `None`. -/
def extract_incident_id : AnalysisInput → Option JValue
  | .incident i => some (.jstr i.id)
  | .dict d => jget d "id"
  | .other _ => none

/-- Lookup in a context dict. -/
def ctxGet (d : Ctx) (k : String) : Option CtxVal :=
  match d with
  | [] => none
  | (k2, v) :: rest => if k2 = k then some v else ctxGet rest k

mutual

/-- Model of `json.dumps(v, default=str)` on a free-form context value. -/
def dumpCtxVal : CtxVal → String
  | .vstr s => dumpStr s
  | .vint n => toString n
  | .vfloat q => numToStr q
  | .vbool b => if b then "true" else "false"
  | .vlist xs => "[" ++ pyJoin ", " (dumpCtxList xs) ++ "]"
  | .vdict d => "\x7b" ++ pyJoin ", " (dumpCtxObj d) ++ "\x7d"
  | .vother t => dumpStr t

/-- Dump the items of a context list. -/
def dumpCtxList : List CtxVal → List String
  | [] => []
  | x :: xs => dumpCtxVal x :: dumpCtxList xs

/-- Dump the members of a context dict. -/
def dumpCtxObj : List (String × CtxVal) → List String
  | [] => []
  | (k, v) :: rest => (dumpStr k ++ ": " ++ dumpCtxVal v) :: dumpCtxObj rest

end

/-- Model of Python `str(v)` on a context value. -/
def pyStrCtx : CtxVal → String
  | .vstr s => s
  | .vint n => toString n
  | .vfloat q => numToStr q
  | .vbool b => if b then "True" else "False"
  | .vlist xs => dumpCtxVal (.vlist xs)
  | .vdict d => dumpCtxVal (.vdict d)
  | .vother t => t

/-- Python `str(x)[:200]`. -/
def truncate200 (s : String) : String := ⟨s.data.take 200⟩

/-- One rendered line per recent log entry (`for i, log in enumerate`). -/
def logLine (i : Nat) (log : CtxVal) : String :=
  match log with
  | .vdict d =>
    "  " ++ toString (i + 1) ++ ". [" ++ pyStrCtx ((ctxGet d "level").getD (.vstr "INFO"))
      ++ "] " ++ pyStrCtx ((ctxGet d "message").getD (.vstr (pyStrCtx (.vdict d))))
  | v => "  " ++ toString (i + 1) ++ ". " ++ truncate200 (pyStrCtx v)

/-- One rendered line per related alert. -/
def alertLine (i : Nat) (al : CtxVal) : String :=
  match al with
  | .vdict d =>
    "  " ++ toString (i + 1) ++ ". [" ++ pyStrCtx ((ctxGet d "severity").getD (.vstr "INFO"))
      ++ "] " ++ pyStrCtx ((ctxGet d "title").getD (.vstr (pyStrCtx (.vdict d))))
  | v => "  " ++ toString (i + 1) ++ ". " ++ truncate200 (pyStrCtx v)

/-- Index-threaded rendering loop over a list of context values. -/
def enumLines (f : Nat → CtxVal → String) : Nat → List CtxVal → List String
  | _, [] => []
  | i, x :: xs => f i x :: enumLines f (i + 1) xs

/-- Model of `_process_additional_data`: labeled sections for recent logs
(first 10), metrics, related alerts (first 5) and service health, joined by
blank lines; a fixed sentence when the context is missing/empty or no
section applies. -/
def process_additional_data (ctx : Option Ctx) : String :=
  match ctx with
  | none => "No additional data provided."
  | some d =>
    if d.isEmpty then "No additional data provided."
    else
      let s1 : List String :=
        match ctxGet d "logs" with
        | some (.vlist logs) =>
          ("RECENT LOGS (" ++ toString logs.length ++ " entries):")
            :: enumLines logLine 0 (logs.take 10)
        | _ => []
      let s2 : List String :=
        match ctxGet d "metrics" with
        | some m => ["METRICS: " ++ dumpCtxVal m]
        | none => []
      let s3 : List String :=
        match ctxGet d "alerts" with
        | some (.vlist als) =>
          ("RELATED ALERTS (" ++ toString als.length ++ " alerts):")
            :: enumLines alertLine 0 (als.take 5)
        | _ => []
      let s4 : List String :=
        match ctxGet d "service_health" with
        | some h => ["SERVICE HEALTH: " ++ dumpCtxVal h]
        | none => []
      let sections := s1 ++ s2 ++ s3 ++ s4
      if sections.isEmpty then "No additional data provided."
      else pyJoin "\n\n" sections

/-- Model of `analysis_prompt.format(...)`: the fixed template filled with
the incident rendering, the additional data and the context summary. -/
def analysisPromptContent (incident additional context : String) : String :=
  "\nPerform a comprehensive analysis of the following incident:\n\nINCIDENT DETAILS:\n"
  ++ incident
  ++ "\n\nADDITIONAL DATA:\n"
  ++ additional
  ++ "\n\nCONTEXT:\n"
  ++ context
  ++ "\n\nYour analysis should include:\n1. Root cause analysis\n2. Impact assessment\n3. Recommended remediation steps\n4. Prevention measures\n5. Escalation recommendations\n\nRespond in JSON format:\n\x7b\n    \"root_cause_analysis\": \x7b(nested mapping)\x7d,\n    \"impact_assessment\": \x7b(nested mapping)\x7d,\n    \"remediation_plan\": \x7b(nested mapping)\x7d,\n    \"prevention_measures\": \x7b(nested mapping)\x7d,\n    \"escalation_recommendation\": \x7b(nested mapping)\x7d,\n    \"next_steps\": [\"step1\", \"step2\"],\n    \"confidence_score\": float (0.0-1.0)\n\x7d\n"

/-- The result envelope returned by the analysis orchestrator. -/
structure AnaEnvelope where
  error : Option String
  analysis : Option JObj
  analyzed_at : String
  agent : String
  incident_id : Option JValue
deriving Repr, DecidableEq

/-- The `try` body of `IncidentAnalysisAgent.process`: normalize the
incident, render additional data and context, build the prompt, await the
model and validate the response. -/
def analysisBody (input : AnalysisInput) (ctx : Option Ctx)
    (llm : Except PyErr String) : Except PyErr JObj := do
  let incident_data := normalize_incident_data input
  let additional_data := process_additional_data ctx
  let context_str := create_context_summary ctx
  let _prompt := analysisPromptContent incident_data additional_data context_str
  let _sys := get_system_prompt "IncidentAnalysisAgent"
  let response ← llm
  let analysis_result ← parse_analysis_result response
  pure analysis_result

/-- Model of `IncidentAnalysisAgent.process`: run the body and catch every
raised fault at the boundary, converting it into the error envelope (whose
`analysis` field is `None`). -/
def analysisProcess (input : AnalysisInput) (ctx : Option Ctx)
    (llm : Except PyErr String) (anaAt : String) : AnaEnvelope :=
  match analysisBody input ctx llm with
  | .ok a =>
    { error := none, analysis := some a, analyzed_at := anaAt,
      agent := "IncidentAnalysisAgent", incident_id := extract_incident_id input }
  | .error e =>
    { error := some e.message, analysis := none, analyzed_at := anaAt,
      agent := "IncidentAnalysisAgent", incident_id := extract_incident_id input }

/-! Occurrence counting for the `"---"` separator (model of Python
`text.count("---")`, non-overlapping left-to-right scan). -/

/-- Count non-overlapping occurrences of three consecutive dashes. -/
def countDashes : List Char → Nat
  | '-' :: '-' :: '-' :: rest => countDashes rest + 1
  | _ :: rest => countDashes rest
  | [] => 0

/-- Model of Python `s.count("---")`. -/
def countTripleDash (s : String) : Nat := countDashes s.data

theorem countDashes_cons3 (a b c : Char) (l : List Char)
    (h : ¬(a = '-' ∧ b = '-' ∧ c = '-')) :
    countDashes (a :: b :: c :: l) = countDashes (b :: c :: l) := by
  rw [countDashes.eq_def]
  split
  · rename_i heq
    injection heq with h1 heq
    injection heq with h2 heq
    injection heq with h3 heq
    exact absurd ⟨h1, h2, h3⟩ h
  · rename_i x rest heq
    injection heq with h1 heq
    subst heq
    rfl
  · rename_i heq
    exact absurd heq (List.cons_ne_nil _ _)

theorem countDashes_cons_ne (c : Char) (hc : c ≠ '-') (l : List Char) :
    countDashes (c :: l) = countDashes l := by
  rw [countDashes.eq_def]
  split
  · rename_i heq
    injection heq with h1 _
    exact absurd h1 hc
  · rename_i x rest heq
    injection heq with h1 heq
    subst heq
    rfl
  · rename_i heq
    exact absurd heq (List.cons_ne_nil _ _)

theorem countDashes_triple (l : List Char) :
    countDashes ('-' :: '-' :: '-' :: l) = countDashes l + 1 := rfl

theorem countDashes_one (c : Char) : countDashes [c] = 0 := by
  rw [countDashes.eq_def]
  split
  · rename_i heq
    injection heq with _ heq
    exact absurd heq (by simp)
  · rename_i x rest heq
    injection heq with _ heq
    subst heq
    rfl
  · rename_i heq
    exact absurd heq (by simp)

theorem countDashes_two (a b : Char) : countDashes [a, b] = 0 := by
  rw [countDashes.eq_def]
  split
  · rename_i heq
    injection heq with _ heq
    injection heq with _ heq
    exact absurd heq (by simp)
  · rename_i x rest heq
    injection heq with _ heq
    subst heq
    exact countDashes_one b
  · rename_i heq
    exact absurd heq (by simp)

/-- Occurrences in a string followed by a block that starts with two
newlines split at the boundary: no occurrence can straddle it. -/
theorem countDashes_append_nl2 :
    ∀ (p r : List Char),
      countDashes (p ++ '\n' :: '\n' :: r) =
        countDashes p + countDashes ('\n' :: '\n' :: r)
  | [], r => by simp [countDashes]
  | [a], r => by
    rw [List.singleton_append, countDashes_cons3 a '\n' '\n' r (by simp)]
    simp [countDashes]
  | [a, b], r => by
    have hb : (List.cons a [b]) ++ '\n' :: '\n' :: r = a :: b :: '\n' :: '\n' :: r := rfl
    rw [hb, countDashes_cons3 a b '\n' _ (by simp),
      countDashes_cons3 b '\n' '\n' r (by simp), countDashes_two a b]
    omega
  | a :: b :: c :: rest, r => by
    by_cases h3 : a = '-' ∧ b = '-' ∧ c = '-'
    · obtain ⟨ha, hb, hc⟩ := h3
      subst ha; subst hb; subst hc
      have hl : ('-' :: '-' :: '-' :: rest) ++ '\n' :: '\n' :: r =
          '-' :: '-' :: '-' :: (rest ++ '\n' :: '\n' :: r) := rfl
      rw [hl, countDashes_triple, countDashes_triple,
        countDashes_append_nl2 rest r]
      omega
    · have hl : (a :: b :: c :: rest) ++ '\n' :: '\n' :: r =
          a :: b :: c :: (rest ++ '\n' :: '\n' :: r) := rfl
      rw [hl, countDashes_cons3 a b c _ h3, countDashes_cons3 a b c rest h3]
      exact countDashes_append_nl2 (b :: c :: rest) r

/-- Occurrence count of the separator across a join: with pieces free of
occurrences, every occurrence comes from one of the `n - 1` separators. -/
theorem countDashes_pyJoin :
    ∀ (ps : List String), (∀ p ∈ ps, countTripleDash p = 0) → ps ≠ [] →
      countTripleDash (pyJoin "\n\n---\n\n" ps) = ps.length - 1
  | [], _, hne => absurd rfl hne
  | [x], h, _ => by
    simpa [countTripleDash, pyJoin] using h x (by simp)
  | x :: y :: rest, h, _ => by
    have hx : countTripleDash x = 0 := h x (by simp)
    have htail : countTripleDash (pyJoin "\n\n---\n\n" (y :: rest)) = (y :: rest).length - 1 :=
      countDashes_pyJoin (y :: rest) (fun p hp => h p (List.mem_cons_of_mem x hp)) (by simp)
    have hdata : (pyJoin "\n\n---\n\n" (x :: y :: rest)).data =
        x.data ++ '\n' :: '\n' :: ('-' :: '-' :: '-' :: '\n' :: '\n' ::
          (pyJoin "\n\n---\n\n" (y :: rest)).data) := by
      show (x ++ "\n\n---\n\n" ++ pyJoin "\n\n---\n\n" (y :: rest)).data = _
      simp [String.data_append]
    unfold countTripleDash at hx htail ⊢
    rw [hdata, countDashes_append_nl2, hx,
      countDashes_cons_ne '\n' (by decide) _, countDashes_cons_ne '\n' (by decide) _,
      countDashes_triple,
      countDashes_cons_ne '\n' (by decide) _, countDashes_cons_ne '\n' (by decide) _,
      htail]
    simp

/-- The truncation loop is `map` over `take`. -/
theorem normalizeFirst_eq :
    ∀ (n : Nat) (xs : List InputData),
      normalizeFirst n xs = (xs.take n).map normalize_input_data
  | _, [] => by simp [normalizeFirst]
  | 0, _ :: _ => by simp [normalizeFirst]
  | n + 1, x :: xs => by
    simp [normalizeFirst, List.take_succ_cons, normalizeFirst_eq n xs]

/-! Dict lookup/update lemmas and backfill lemmas for the validators. -/

theorem jget_jset_self (o : JObj) (k : String) (v : JValue) :
    jget (jset o k v) k = some v := by
  induction o with
  | nil => simp [jget, jset]
  | cons kv rest ih =>
    obtain ⟨k2, v2⟩ := kv
    by_cases h : k2 = k
    · subst h
      simp [jget, jset]
    · simp [jget, jset, h, ih]

theorem jget_jset_ne (o : JObj) (k k2 : String) (v : JValue) (h : k ≠ k2) :
    jget (jset o k v) k2 = jget o k2 := by
  induction o with
  | nil => simp [jget, jset, h]
  | cons kv rest ih =>
    obtain ⟨k3, v3⟩ := kv
    by_cases h3 : k3 = k
    · subst h3
      simp [jget, jset, h]
    · simp [jset, h3, jget, ih]

theorem jget_backfillRequired_detected (o : JObj) :
    jget (backfillRequired o) "incident_detected" =
      some ((jget o "incident_detected").getD (.jbool false)) := by
  unfold backfillRequired
  cases hdet : jget o "incident_detected" with
  | some v =>
    simp only [hdet, Option.isSome_some, if_true, Option.getD_some]
    cases hc : jget o "confidence_score" with
    | some w => simp [hc, hdet]
    | none =>
      simp only [hc, Option.isSome_none, Bool.false_eq_true, if_false]
      rw [jget_jset_ne o "confidence_score" "incident_detected" _ (by decide), hdet]
  | none =>
    simp only [hdet, Option.isSome_none, Bool.false_eq_true, if_false, Option.getD_none]
    cases hc : jget (jset o "incident_detected" (.jbool false)) "confidence_score" with
    | some w => simp [hc, jget_jset_self]
    | none =>
      simp only [hc, Option.isSome_none, Bool.false_eq_true, if_false]
      rw [jget_jset_ne _ "confidence_score" "incident_detected" _ (by decide), jget_jset_self]

theorem jget_backfillRequired_conf (o : JObj) :
    jget (backfillRequired o) "confidence_score" =
      some ((jget o "confidence_score").getD (.jnum PyNum.zero)) := by
  unfold backfillRequired
  cases hdet : jget o "incident_detected" with
  | some v =>
    simp only [hdet, Option.isSome_some, if_true]
    cases hc : jget o "confidence_score" with
    | some w => simp [hc]
    | none => simp [hc, jget_jset_self]
  | none =>
    simp only [hdet, Option.isSome_none, Bool.false_eq_true, if_false]
    have hc2 : jget (jset o "incident_detected" (.jbool false)) "confidence_score" =
        jget o "confidence_score" := jget_jset_ne _ _ _ _ (by decide)
    cases hc : jget o "confidence_score" with
    | some w => simp [hc2, hc]
    | none => simp [hc2, hc, jget_jset_self]

theorem jget_backfillSections_notmem :
    ∀ (secs : List String) (o : JObj) (k : String), k ∉ secs →
      jget (backfillSections o secs) k = jget o k
  | [], o, k, _ => rfl
  | s :: rest, o, k, h => by
    have hne : s ≠ k := fun he => h (he ▸ List.mem_cons_self s rest)
    have hrest : k ∉ rest := fun hm => h (List.mem_cons_of_mem s hm)
    unfold backfillSections
    cases hs : jget o s with
    | some v => simp [hs, jget_backfillSections_notmem rest o k hrest]
    | none =>
      simp only [hs, Option.isSome_none, Bool.false_eq_true, if_false]
      rw [jget_backfillSections_notmem rest _ k hrest, jget_jset_ne _ _ _ _ hne]

theorem jget_backfillSections_mem :
    ∀ (secs : List String) (o : JObj) (k : String), k ∈ secs → secs.Nodup →
      jget (backfillSections o secs) k = some ((jget o k).getD anaIncomplete)
  | [], _, k, h, _ => absurd h (List.not_mem_nil k)
  | s :: rest, o, k, h, hnd => by
    have hnotrest : s ∉ rest := (List.nodup_cons.mp hnd).1
    have hndrest : rest.Nodup := (List.nodup_cons.mp hnd).2
    unfold backfillSections
    by_cases hk : k = s
    · subst hk
      cases hs : jget o k with
      | some v =>
        simp only [hs, Option.isSome_some, if_true, Option.getD_some]
        rw [jget_backfillSections_notmem rest o k hnotrest, hs]
      | none =>
        simp only [hs, Option.isSome_none, Bool.false_eq_true, if_false, Option.getD_none]
        rw [jget_backfillSections_notmem rest _ k hnotrest, jget_jset_self]
    · have hkrest : k ∈ rest := (List.mem_cons.mp h).resolve_left hk
      cases hs : jget o s with
      | some v =>
        simp only [hs, Option.isSome_some, if_true]
        exact jget_backfillSections_mem rest o k hkrest hndrest
      | none =>
        simp only [hs, Option.isSome_none, Bool.false_eq_true, if_false]
        rw [jget_backfillSections_mem rest _ k hkrest hndrest,
          jget_jset_ne _ _ _ _ (fun he => hk he.symm)]

/-! Fence-stripping lemmas for the wrapped/unwrapped equivalence. -/

theorem pyStrip_eq_self (s : String)
    (h1 : ∀ c, s.data.head? = some c → pyWs c = false)
    (h2 : ∀ c, s.data.getLast? = some c → pyWs c = false) :
    pyStrip s = s := by
  have hdrop : ∀ (l : List Char), (∀ c, l.head? = some c → pyWs c = false) →
      l.dropWhile pyWs = l := by
    intro l hl
    cases l with
    | nil => rfl
    | cons a as => rw [List.dropWhile_cons, hl a rfl]; simp
  unfold pyStrip
  rw [hdrop s.data h1]
  rw [hdrop s.data.reverse (by
    intro c hc
    rw [List.head?_reverse] at hc
    exact h2 c hc)]
  rw [List.reverse_reverse]

theorem stripFences_wrapped (t : String) :
    stripFences ("```json" ++ t ++ "```") = t := by
  have hdata : ("```json" ++ t ++ "```").data =
      '`' :: '`' :: '`' :: 'j' :: 's' :: 'o' :: 'n' :: (t.data ++ ['`', '`', '`']) := by
    show ("```json".data ++ t.data) ++ "```".data = _
    simp
  have hstrip : pyStrip ("```json" ++ t ++ "```") = "```json" ++ t ++ "```" := by
    apply pyStrip_eq_self
    · intro c hc
      rw [hdata] at hc
      simp at hc
      subst hc
      decide
    · intro c hc
      rw [hdata, ← List.head?_reverse] at hc
      simp [List.reverse_append] at hc
      subst hc
      decide
  have hpre : pyStartsWith ("```json" ++ t ++ "```") "```json" = true := by
    unfold pyStartsWith
    rw [hdata]
    simp [List.isPrefixOf]
  have hdrop7 : pyDrop ("```json" ++ t ++ "```") 7 = ⟨t.data ++ ['`', '`', '`']⟩ := by
    unfold pyDrop
    rw [hdata]
    rfl
  have hsuf : pyEndsWith ⟨t.data ++ ['`', '`', '`']⟩ "```" = true := by
    unfold pyEndsWith
    show List.isSuffixOf "```".data (t.data ++ ['`', '`', '`']) = true
    unfold List.isSuffixOf
    simp [List.isPrefixOf]
  simp only [stripFences]
  rw [hstrip, hpre]
  simp only [if_true]
  rw [hdrop7, hsuf]
  simp only [if_true]
  unfold pyDropRight
  show String.mk ((t.data ++ ['`', '`', '`']).take ((t.data ++ ['`', '`', '`']).length - 3)) = t
  rw [List.length_append]
  simp

theorem stripFences_of_clean (t : String) (h1 : pyStrip t = t)
    (h2 : pyStartsWith t "```json" = false) (h3 : pyEndsWith t "```" = false) :
    stripFences t = t := by
  simp only [stripFences]
  rw [h1, h2]
  simp only [Bool.false_eq_true, if_false]
  rw [h3]
  simp

/-! Shape lemmas about which exception classes the library models can
raise. -/

theorem json_loads_error_shape (s : String) (e : PyErr) (h : json_loads s = .error e) :
    ∃ m, e = .jsonDecodeError m ∧ m ≠ "" := by
  unfold json_loads at h
  split at h
  · split at h
    · exact absurd h (by simp)
    · exact ⟨"Extra data", (Except.error.inj h).symm, by decide⟩
  · exact ⟨"Expecting value", (Except.error.inj h).symm, by decide⟩

theorem pyFloat_error_shape (v : JValue) (e : PyErr) (h : pyFloat v = .error e) :
    (∃ m, e = .valueError m) ∨ (∃ m, e = .typeError m) := by
  cases v with
  | jnum q => exact absurd h (by simp [pyFloat])
  | jbool b => exact absurd h (by simp [pyFloat])
  | jstr s =>
    simp only [pyFloat] at h
    split at h
    · exact absurd h (by simp)
    · exact .inl ⟨_, (Except.error.inj h).symm⟩
  | jnull =>
    simp only [pyFloat] at h
    exact .inr ⟨_, (Except.error.inj h).symm⟩
  | jarr xs =>
    simp only [pyFloat] at h
    exact .inr ⟨_, (Except.error.inj h).symm⟩
  | jobj fs =>
    simp only [pyFloat] at h
    exact .inr ⟨_, (Except.error.inj h).symm⟩

/-! Reduction lemmas for the `Except` monad used by the orchestrator
bodies. -/

theorem except_bind_ok {ε α β : Type _} (a : α) (f : α → Except ε β) :
    ((Except.ok a : Except ε α) >>= f) = f a := rfl

theorem except_bind_err {ε α β : Type _} (e : ε) (f : α → Except ε β) :
    ((Except.error e : Except ε α) >>= f) = .error e := rfl

theorem except_pure_def {ε α : Type _} (a : α) :
    (pure a : Except ε α) = .ok a := rfl

/-! Claim C5 — fence stripping. -/

/-- C5, counterexample: the claim quantifies over every text `t`, but a
text that itself ends in a fence marker parses differently wrapped and
unwrapped: unwrapped, its own trailing marker is stripped and the JSON
parses; wrapped, only the added marker is stripped and parsing fails. -/
theorem fence_wrap_counterexample :
    parse_detection_result ("```json" ++ "\x7b\x7d```" ++ "```") ≠
      parse_detection_result "\x7b\x7d```" := by decide

/-- C5 (amended): for every text `t` that is already whitespace-trimmed and
does not itself begin with a leading fence marker or end with a trailing
fence marker, the validator parses the fenced and unfenced versions to
identical results, in both the detection and analysis variants. -/
theorem fence_wrap_equiv (t : String) (h1 : pyStrip t = t)
    (h2 : pyStartsWith t "```json" = false) (h3 : pyEndsWith t "```" = false) :
    parse_detection_result ("```json" ++ t ++ "```") = parse_detection_result t ∧
    parse_analysis_result ("```json" ++ t ++ "```") = parse_analysis_result t := by
  have hw := stripFences_wrapped t
  have hc := stripFences_of_clean t h1 h2 h3
  constructor
  · simp only [parse_detection_result, hw, hc]
  · simp only [parse_analysis_result, hw, hc]

/-- C5 witness: a concrete trimmed, unfenced JSON text satisfying the
hypotheses, on which wrapped and unwrapped validation agree. -/
theorem fence_wrap_equiv_witness :
    pyStrip "\x7b\"incident_detected\": true\x7d" = "\x7b\"incident_detected\": true\x7d" ∧
    pyStartsWith "\x7b\"incident_detected\": true\x7d" "```json" = false ∧
    pyEndsWith "\x7b\"incident_detected\": true\x7d" "```" = false ∧
    (parse_detection_result ("```json" ++ "\x7b\"incident_detected\": true\x7d" ++ "```") =
        parse_detection_result "\x7b\"incident_detected\": true\x7d" ∧
      parse_analysis_result ("```json" ++ "\x7b\"incident_detected\": true\x7d" ++ "```") =
        parse_analysis_result "\x7b\"incident_detected\": true\x7d") :=
  ⟨by decide, by decide, by decide,
    fence_wrap_equiv "\x7b\"incident_detected\": true\x7d" (by decide) (by decide) (by decide)⟩

/-! Claim C6 — list truncation. -/

/-- C6, counterexample: the 49-occurrence count fails when the items
themselves contain the separator text: 120 items equal to `"---"` give 99
occurrences (50 from the items kept, 49 from the separators). -/
theorem list_truncation_counterexample :
    (List.replicate 120 (InputData.str "---")).length = 120 ∧
    ¬ countTripleDash
        (normalize_input_data (.list (List.replicate 120 (InputData.str "---")))) = 49 := by
  constructor
  · rfl
  · decide

/-- C6 (amended): `normalize` on a sequence normalizes exactly the first 50
elements (the rest are ignored) and joins them with the fixed separator;
for a 120-item sequence whose normalized items contain no `"---"`
occurrence of their own, the output contains exactly 49 occurrences. -/
theorem list_truncation_contract :
    (∀ xs : List InputData,
       normalize_input_data (.list xs) =
         pyJoin "\n\n---\n\n" ((xs.take 50).map normalize_input_data)) ∧
    (∀ xs : List InputData, xs.length = 120 →
       (∀ x ∈ xs, countTripleDash (normalize_input_data x) = 0) →
       countTripleDash (normalize_input_data (.list xs)) = 49) := by
  have hfirst : ∀ xs : List InputData,
      normalize_input_data (.list xs) =
        pyJoin "\n\n---\n\n" ((xs.take 50).map normalize_input_data) := by
    intro xs
    simp only [normalize_input_data]
    rw [normalizeFirst_eq]
  refine ⟨hfirst, fun xs hlen h0 => ?_⟩
  rw [hfirst]
  have hlen50 : ((xs.take 50).map normalize_input_data).length = 50 := by
    simp [hlen]
  rw [countDashes_pyJoin _ ?_ ?_, hlen50]
  · intro p hp
    obtain ⟨x, hx, hpx⟩ := List.mem_map.mp hp
    exact hpx ▸ h0 x (List.mem_of_mem_take hx)
  · intro hnil
    rw [hnil] at hlen50
    simp at hlen50

/-- C6 witness: 120 items `"item"` (whose normalizations are separator-free),
on which the truncated join has exactly 49 separator occurrences. -/
theorem list_truncation_witness :
    (List.replicate 120 (InputData.str "item")).length = 120 ∧
    countTripleDash
      (normalize_input_data (.list (List.replicate 120 (InputData.str "item")))) = 49 :=
  ⟨rfl, list_truncation_contract.2 (List.replicate 120 (InputData.str "item")) rfl
    (by
      intro x hx
      rw [List.eq_of_mem_replicate hx]
      decide)⟩

/-! Claim C7 — normalizer totality. -/

/-- `dumpKey` succeeds exactly on serializable keys. -/
theorem dumpKey_total (k : PyKey) (h : dumpableKey k = true) :
    ∃ s, dumpKey k = .ok s := by
  cases k with
  | kstr s => exact ⟨_, rfl⟩
  | kint n => exact ⟨_, rfl⟩
  | kfloat q => exact ⟨_, rfl⟩
  | kbool b => exact ⟨_, rfl⟩
  | knone => exact ⟨_, rfl⟩
  | kother t => exact absurd h (by simp [dumpableKey])

/-- Embedded string-keyed values dump to their total rendering. -/
theorem dumpRawVal_inj (v : PyVal) : pyDumpsRawVal (injVal v) = .ok (dumpPyVal v) := by
  cases v <;> rfl

/-- Embedded string-keyed dicts dump to the entry list of the total
rendering. -/
theorem dumpRawObj_inj :
    ∀ d : PyDict, dumpRawObj (injDict d) =
      .ok (d.map fun kv => dumpStr kv.1 ++ ": " ++ dumpPyVal kv.2)
  | [] => rfl
  | (k, v) :: rest => by
    show (do
      let ks ← dumpKey (.kstr k)
      let vs ← pyDumpsRawVal (injVal v)
      let rs ← dumpRawObj (injDict rest)
      pure ((ks ++ ": " ++ vs) :: rs) : Except PyErr (List String)) = _
    rw [show dumpKey (.kstr k) = .ok (dumpStr k) from rfl, except_bind_ok,
      dumpRawVal_inj v, except_bind_ok, dumpRawObj_inj rest, except_bind_ok,
      except_pure_def]
    simp [List.map_cons]

/-- The fallible indented dump agrees with the total one on string-keyed
dicts. -/
theorem pyDumpsIndent_inj (d : PyDict) :
    pyDumpsRawIndent (injDict d) = .ok (pyDumpsIndent d) := by
  cases d with
  | nil => rfl
  | cons kv rest =>
    show (do
      let ps ← dumpRawObj (injDict (kv :: rest))
      pure ("\x7b\n  " ++ pyJoin ",\n  " ps ++ "\n\x7d") : Except PyErr String) = _
    rw [dumpRawObj_inj (kv :: rest), except_bind_ok, except_pure_def]
    rfl

mutual

/-- On the string-keyed domain the unrestricted normalizer never raises
and computes exactly the total restriction. -/
theorem normalize_inj : ∀ x : InputData,
    normalize_input_raw (injInput x) = .ok (normalize_input_data x)
  | .str s => rfl
  | .log e => rfl
  | .alert a => rfl
  | .other r => rfl
  | .dict d => pyDumpsIndent_inj d
  | .list xs => by
    show (do
      let ps ← rawNormalizeFirst 50 (injList xs)
      pure (pyJoin "\n\n---\n\n" ps) : Except PyErr String) = _
    rw [rawFirst_inj 50 xs, except_bind_ok, except_pure_def]
    rfl

/-- The truncation loops agree on the string-keyed domain. -/
theorem rawFirst_inj : ∀ (n : Nat) (xs : List InputData),
    rawNormalizeFirst n (injList xs) = .ok (normalizeFirst n xs)
  | 0, [] => rfl
  | _ + 1, [] => rfl
  | 0, _ :: _ => rfl
  | n + 1, x :: xs => by
    show (do
      let s ← normalize_input_raw (injInput x)
      let rest ← rawNormalizeFirst n (injList xs)
      pure (s :: rest) : Except PyErr (List String)) = _
    rw [normalize_inj x, except_bind_ok, rawFirst_inj n xs, except_bind_ok,
      except_pure_def]
    rfl

end

mutual

/-- Value serialization succeeds whenever every reachable key is
serializable. -/
theorem dumpRawVal_total : ∀ v : RawVal, goodVal v = true →
    ∃ s, pyDumpsRawVal v = .ok s
  | .json j, _ => ⟨_, rfl⟩
  | .blob s, _ => ⟨_, rfl⟩
  | .rlist xs, h => by
    obtain ⟨l, hl⟩ := dumpRawList_total xs (by simpa [goodVal] using h)
    refine ⟨"[" ++ pyJoin ", " l ++ "]", ?_⟩
    simp only [pyDumpsRawVal]
    rw [hl, except_bind_ok, except_pure_def]
  | .rdict d, h => by
    obtain ⟨l, hl⟩ := dumpRawObj_total d (by simpa [goodVal] using h)
    refine ⟨"\x7b" ++ pyJoin ", " l ++ "\x7d", ?_⟩
    simp only [pyDumpsRawVal]
    rw [hl, except_bind_ok, except_pure_def]

/-- List serialization succeeds on good values. -/
theorem dumpRawList_total : ∀ xs : List RawVal, goodValList xs = true →
    ∃ l, dumpRawList xs = .ok l
  | [], _ => ⟨[], rfl⟩
  | x :: xs, h => by
    have hx : goodVal x = true ∧ goodValList xs = true := by
      simpa [goodValList, Bool.and_eq_true] using h
    obtain ⟨s, hs⟩ := dumpRawVal_total x hx.1
    obtain ⟨l, hl⟩ := dumpRawList_total xs hx.2
    refine ⟨s :: l, ?_⟩
    simp only [dumpRawList]
    rw [hs, except_bind_ok, hl, except_bind_ok, except_pure_def]

/-- Dict serialization succeeds when all keys (recursively) are
serializable. -/
theorem dumpRawObj_total : ∀ d : List (PyKey × RawVal), goodValObj d = true →
    ∃ l, dumpRawObj d = .ok l
  | [], _ => ⟨[], rfl⟩
  | (k, v) :: rest, h => by
    have hx : dumpableKey k = true ∧ goodVal v = true ∧ goodValObj rest = true := by
      simpa [goodValObj, Bool.and_eq_true, and_assoc] using h
    obtain ⟨ks, hks⟩ := dumpKey_total k hx.1
    obtain ⟨vs, hvs⟩ := dumpRawVal_total v hx.2.1
    obtain ⟨l, hl⟩ := dumpRawObj_total rest hx.2.2
    refine ⟨(ks ++ ": " ++ vs) :: l, ?_⟩
    simp only [dumpRawObj]
    rw [hks, except_bind_ok, hvs, except_bind_ok, hl, except_bind_ok, except_pure_def]

end

mutual

/-- The unrestricted normalizer succeeds on every input all of whose dict
keys are serializable. -/
theorem normalize_raw_total : ∀ x : RawInput, goodInput x = true →
    ∃ s, normalize_input_raw x = .ok s
  | .str s, _ => ⟨s, rfl⟩
  | .log e, _ => ⟨_, rfl⟩
  | .alert a, _ => ⟨_, rfl⟩
  | .other r, _ => ⟨r, rfl⟩
  | .dict d, h => by
    cases d with
    | nil => exact ⟨"\x7b\x7d", rfl⟩
    | cons kv rest =>
      obtain ⟨l, hl⟩ := dumpRawObj_total (kv :: rest) (by simpa [goodInput] using h)
      refine ⟨"\x7b\n  " ++ pyJoin ",\n  " l ++ "\n\x7d", ?_⟩
      show (do
        let ps ← dumpRawObj (kv :: rest)
        pure ("\x7b\n  " ++ pyJoin ",\n  " ps ++ "\n\x7d") : Except PyErr String) = _
      rw [hl, except_bind_ok, except_pure_def]
  | .list xs, h => by
    obtain ⟨l, hl⟩ := rawFirst_total 50 xs (by simpa [goodInput] using h)
    refine ⟨pyJoin "\n\n---\n\n" l, ?_⟩
    simp only [normalize_input_raw]
    rw [hl, except_bind_ok, except_pure_def]

/-- The truncation loop succeeds on good inputs. -/
theorem rawFirst_total : ∀ (n : Nat) (xs : List RawInput), goodInputList xs = true →
    ∃ l, rawNormalizeFirst n xs = .ok l
  | 0, [], _ => ⟨[], rfl⟩
  | _ + 1, [], _ => ⟨[], rfl⟩
  | 0, _ :: _, _ => ⟨[], rfl⟩
  | n + 1, x :: xs, h => by
    have hx : goodInput x = true ∧ goodInputList xs = true := by
      simpa [goodInputList, Bool.and_eq_true] using h
    obtain ⟨s, hs⟩ := normalize_raw_total x hx.1
    obtain ⟨l, hl⟩ := rawFirst_total n xs hx.2
    refine ⟨s :: l, ?_⟩
    simp only [rawNormalizeFirst]
    rw [hs, except_bind_ok, hl, except_bind_ok, except_pure_def]

end

/-- C7, counterexample: `normalize` is not exception-free — `default=str`
applies only to values, never to keys, so a mapping with a non-coercible
key (e.g. a tuple) makes `json.dumps(input_data, default=str, indent=2)`
raise `TypeError`, which propagates out of `normalize` instead of a
string being returned. -/
theorem normalizer_raises_counterexample :
    normalize_input_raw (.dict [(.kother "tuple", .json (.jnum ⟨1, 1⟩))]) =
      .error (.typeError "keys must be str, int, float, bool or None, not tuple") := by
  decide

/-- C7 (amended): `normalize` returns a non-null string and never raises
on every input all of whose mapping keys, at every nesting level, are
JSON-coercible (str/int/float/bool/None) — including empty sequences,
empty mappings and mappings with non-serializable values, which
`default=str` stringifies; on string-keyed inputs it computes exactly the
total restriction. Outside that domain it can raise (see the
counterexample). -/
theorem normalizer_domain_total :
    (∀ x : InputData, normalize_input_raw (injInput x) = .ok (normalize_input_data x)) ∧
    (∀ x : RawInput, goodInput x = true → ∃ s, normalize_input_raw x = .ok s) ∧
    normalize_input_raw (.list []) = .ok "" ∧
    normalize_input_raw (.dict []) = .ok "\x7b\x7d" ∧
    normalize_input_raw (.dict [(.kstr "handle", .blob "<socket fd=3>")]) =
      .ok "\x7b\n  \"handle\": \"<socket fd=3>\"\n\x7d" ∧
    normalize_input_raw (.dict [(.kint 1, .json (.jstr "a"))]) =
      .ok "\x7b\n  \"1\": \"a\"\n\x7d" ∧
    (∀ s, normalize_input_raw (.str s) = .ok s) :=
  ⟨normalize_inj, normalize_raw_total, by decide, by decide, by decide, by decide,
    fun _ => rfl⟩

/-- C7 witness: a concrete nested mapping with coercible keys (a string
key over an int-keyed inner dict holding a non-serializable value) is in
the good domain and normalizes to a string. -/
theorem normalizer_domain_total_witness :
    goodInput (.dict [(.kstr "cfg", .rdict [(.kint 2, .blob "obj")])]) = true ∧
    (∃ s, normalize_input_raw (.dict [(.kstr "cfg", .rdict [(.kint 2, .blob "obj")])]) =
      .ok s) :=
  ⟨by decide,
    normalizer_domain_total.2.1 (.dict [(.kstr "cfg", .rdict [(.kint 2, .blob "obj")])])
      (by decide)⟩

/-! Claim C8 — tag list duplicates. -/

/-- An incident literal whose constructor-supplied tag list already holds a
duplicate (the constructor performs no deduplication). -/
def dupTagIncident : Incident :=
  { id := "INC-20240101-000001", title := "t", description := "d",
    severity := .low, created_at := 0, updated_at := 0, tags := ["x", "x"] }

/-- Any sequence of `add_tag` calls, as `(tag, instant)` pairs. -/
def applyAddTags (i : Incident) (calls : List (String × Time)) : Incident :=
  calls.foldl (fun acc c => acc.add_tag c.1 c.2) i

/-- C8, counterexample: the constructor does not deduplicate, so an
Incident built with `tags=["x","x"]` is reachable by direct construction;
on it, `add_tag("x")` twice leaves `"x"` in the list twice, not once, and
the no-duplicates invariant fails. -/
theorem tag_duplicates_counterexample :
    ((dupTagIncident.add_tag "x" 1).add_tag "x" 2).tags.count "x" = 2 ∧
    ¬ ((dupTagIncident.add_tag "x" 1).add_tag "x" 2).tags.Nodup := by
  constructor
  · decide
  · decide

/-- C8 (amended): `add_tag` never introduces a duplicate: starting from any
Incident whose tag list is duplicate-free (the constructor itself copies
the given list verbatim, so this must hold of the constructed list), every
sequence of `add_tag` calls keeps the list duplicate-free, and calling
`add_tag "x"` twice leaves `"x"` in the list exactly once. -/
theorem add_tag_invariant (i : Incident) (hnd : i.tags.Nodup) :
    (∀ calls : List (String × Time), (applyAddTags i calls).tags.Nodup) ∧
    (∀ (x : String) (t1 t2 : Time),
       ((i.add_tag x t1).add_tag x t2).tags.count x = 1) := by
  have hstep : ∀ (j : Incident) (tag : String) (t : Time),
      j.tags.Nodup → (j.add_tag tag t).tags.Nodup := by
    intro j tag t hj
    unfold Incident.add_tag
    by_cases hmem : tag ∈ j.tags
    · simp [hmem, hj]
    · simp only [hmem, if_false]
      simp [List.nodup_append, hj, hmem]
  constructor
  · intro calls
    induction calls generalizing i with
    | nil => exact hnd
    | cons c rest ih =>
      exact ih (i.add_tag c.1 c.2) (hstep i c.1 c.2 hnd)
  · intro x t1 t2
    have hmemlem : ∀ (j : Incident) (tg : String) (tt : Time), tg ∈ j.tags →
        j.add_tag tg tt = j := by
      intro j tg tt h
      unfold Incident.add_tag
      rw [if_pos h]
    by_cases hmem : x ∈ i.tags
    · rw [hmemlem i x t1 hmem, hmemlem i x t2 hmem]
      exact List.count_eq_one_of_mem hnd hmem
    · have h1 : (i.add_tag x t1).tags = i.tags ++ [x] := by
        unfold Incident.add_tag
        rw [if_neg hmem]
      have hmem2 : x ∈ (i.add_tag x t1).tags := by
        rw [h1]; simp
      rw [hmemlem (i.add_tag x t1) x t2 hmem2, h1, List.count_append]
      rw [List.count_eq_zero.mpr hmem]
      simp

/-- C8 witness: a duplicate-free incident on which the invariant and the
exactly-once property hold. -/
theorem add_tag_invariant_witness :
    dupTagIncident.tags.count "x" = 2 ∧
    ({ dupTagIncident with tags := ["a"] } : Incident).tags.Nodup ∧
    (applyAddTags { dupTagIncident with tags := ["a"] } [("b", 1), ("a", 2), ("b", 3)]).tags.Nodup ∧
    ((({ dupTagIncident with tags := ["a"] } : Incident).add_tag "x" 1).add_tag "x" 2).tags.count "x" = 1 :=
  ⟨by decide, by decide,
    (add_tag_invariant { dupTagIncident with tags := ["a"] } (by decide)).1 [("b", 1), ("a", 2), ("b", 3)],
    (add_tag_invariant { dupTagIncident with tags := ["a"] } (by decide)).2 "x" 1 2⟩

/-! Claim C9 — mutators refresh `updated_at`. -/

/-- C9, counterexample: `add_tag` with an already-present tag leaves the
incident — including `updated_at` — unchanged even though the clock
advanced, so `updated_at` after the mutator call is not strictly later
than before. -/
theorem updated_at_counterexample :
    (dupTagIncident.add_tag "x" 100).updated_at = dupTagIncident.updated_at ∧
    dupTagIncident.updated_at < 100 := by
  constructor
  · decide
  · decide

/-- C9 (amended): `update_status`, `set_jira_ticket` and `set_slack_thread`
always set `updated_at` to the clock instant of the call (hence strictly
later than before whenever the clock advanced), and `add_tag` does so
exactly when its tag is not already present; with an already-present tag
it leaves the incident unchanged. -/
theorem mutators_refresh_updated_at (i : Incident) (st : IncidentStatus)
    (rt : Option Time) (tag tid thid : String) (now : Time) :
    (i.update_status st rt now).updated_at = now ∧
    (i.set_jira_ticket tid now).updated_at = now ∧
    (i.set_slack_thread thid now).updated_at = now ∧
    (tag ∉ i.tags → (i.add_tag tag now).updated_at = now) ∧
    (tag ∈ i.tags → i.add_tag tag now = i) ∧
    (i.updated_at < now → i.updated_at < (i.update_status st rt now).updated_at) := by
  have hupd : (i.update_status st rt now).updated_at = now := by
    unfold Incident.update_status
    by_cases h : st = .resolved && rt.isSome
    · simp [h]
    · simp [h]
  refine ⟨hupd, rfl, rfl, ?_, ?_, ?_⟩
  · intro h
    simp [Incident.add_tag, h]
  · intro h
    simp [Incident.add_tag, h]
  · intro h
    rw [hupd]
    exact h

/-! Claim C3 — backfilled defaults and the confidence clamp. -/

/-- Numeric bounds of the clamp `max(0.0, min(1.0, q))`: the result is
within `[0.0, 1.0]` under the cross-multiplication order. -/
theorem clamp_bounds (q : PyNum) :
    PyNum.le PyNum.zero (pymax PyNum.zero (pymin PyNum.one q)) = true ∧
    PyNum.le (pymax PyNum.zero (pymin PyNum.one q)) PyNum.one = true := by
  unfold pymax pymin
  split_ifs <;>
    simp only [PyNum.le, PyNum.lt, PyNum.zero, PyNum.one, decide_eq_true_eq] at * <;>
    omega

/-- The analysis validator's output on the empty JSON object. -/
def anaEmptyResult : JObj :=
  [("root_cause_analysis", anaIncomplete), ("impact_assessment", anaIncomplete),
   ("remediation_plan", anaIncomplete), ("prevention_measures", anaIncomplete),
   ("escalation_recommendation", anaIncomplete), ("confidence_score", .jnum ⟨5, 10⟩)]

/-- C3, counterexample: on the response `"{}"` the analysis variant
inserts `0.5` (not `0.0`) for the absent confidence score, and inserts the
placeholder `{status: "analysis_incomplete"}` (not `{status: "incomplete"}`)
for the absent sections — and it never clamps. -/
theorem analysis_defaults_counterexample :
    parse_analysis_result "\x7b\x7d" = .ok anaEmptyResult ∧
    jget anaEmptyResult "confidence_score" = some (.jnum ⟨5, 10⟩) ∧
    PyNum.eqv ⟨5, 10⟩ PyNum.zero = false ∧
    jget anaEmptyResult "root_cause_analysis" =
      some (.jobj [("status", .jstr "analysis_incomplete")]) ∧
    (JValue.jobj [("status", .jstr "analysis_incomplete")] ≠
      .jobj [("status", .jstr "incomplete")]) := by
  refine ⟨by decide, by decide, by decide, by decide, by decide⟩

/-- C3 (amended): for every response text whose (trimmed, fence-stripped)
body parses as a JSON object: the detection validator inserts `false` for
an absent `incident_detected` and `0.0` for an absent `confidence_score`,
and unconditionally clamps the confidence through `float()` into
`[0.0, 1.0]`; the analysis validator inserts the placeholder
`{status: "analysis_incomplete"}` for each absent section and `0.5` (not
`0.0`) for an absent confidence score, which it does not clamp. -/
theorem validator_backfill_contract
    (s : String) (o : JObj) (q : PyNum)
    (hload : json_loads (pyStrip (stripFences s)) = .ok (.jobj o))
    (hfloat : pyFloat ((jget (backfillRequired o) "confidence_score").getD (.jnum PyNum.zero))
      = .ok q) :
    (∃ m, parse_detection_result s = .ok m ∧
       jget m "incident_detected" = some ((jget o "incident_detected").getD (.jbool false)) ∧
       jget m "confidence_score" = some (.jnum (pymax PyNum.zero (pymin PyNum.one q))) ∧
       PyNum.le PyNum.zero (pymax PyNum.zero (pymin PyNum.one q)) = true ∧
       PyNum.le (pymax PyNum.zero (pymin PyNum.one q)) PyNum.one = true) ∧
    (∃ m2, parse_analysis_result s = .ok m2 ∧
       (∀ sec ∈ anaSections, jget m2 sec = some ((jget o sec).getD anaIncomplete)) ∧
       jget m2 "confidence_score" = some ((jget o "confidence_score").getD (.jnum ⟨5, 10⟩))) := by
  constructor
  · refine ⟨jset (backfillRequired o) "confidence_score"
      (.jnum (pymax PyNum.zero (pymin PyNum.one q))), ?_, ?_, ?_, (clamp_bounds q).1,
      (clamp_bounds q).2⟩
    · simp only [parse_detection_result]
      rw [hload, except_bind_ok]
      simp only [detValidateParsed]
      rw [hfloat, except_bind_ok, except_pure_def]
      rfl
    · rw [jget_jset_ne _ _ _ _ (by decide), jget_backfillRequired_detected]
    · exact jget_jset_self _ _ _
  · have hnotmem : "confidence_score" ∉ anaSections := by decide
    have hR : jget (backfillSections o anaSections) "confidence_score" =
        jget o "confidence_score" := jget_backfillSections_notmem anaSections o _ hnotmem
    refine ⟨if (jget (backfillSections o anaSections) "confidence_score").isSome
        then backfillSections o anaSections
        else jset (backfillSections o anaSections) "confidence_score" (.jnum ⟨5, 10⟩),
      ?_, ?_, ?_⟩
    · simp only [parse_analysis_result]
      rw [hload, except_bind_ok]
      simp only [anaValidateParsed]
      rw [except_pure_def]
      rfl
    · intro sec hsec
      have hne : sec ≠ "confidence_score" := by
        intro he
        rw [he] at hsec
        exact hnotmem hsec
      have hmem := jget_backfillSections_mem anaSections o sec hsec (by decide)
      cases hconf : (jget (backfillSections o anaSections) "confidence_score").isSome with
      | true => simp only [hconf, if_true]; exact hmem
      | false =>
        simp only [hconf, Bool.false_eq_true, if_false]
        rw [jget_jset_ne _ _ _ _ (fun he => hne he.symm)]
        exact hmem
    · cases hconf : jget (backfillSections o anaSections) "confidence_score" with
      | some w =>
        simp only [hconf, Option.isSome_some, if_true]
        rw [← hR, hconf]
        rfl
      | none =>
        simp only [hconf, Option.isSome_none, Bool.false_eq_true, if_false]
        rw [jget_jset_self, ← hR, hconf]
        rfl

/-- C3 witness: a response with an out-of-range confidence `1.7` is clamped
to `1.0` by the detection validator, while the analysis validator of an
object without confidence yields `0.5`. -/
theorem validator_backfill_contract_witness :
    json_loads (pyStrip (stripFences "\x7b\"confidence_score\": 1.7\x7d")) =
      .ok (.jobj [("confidence_score", .jnum ⟨17, 10⟩)]) ∧
    ((∃ m, parse_detection_result "\x7b\"confidence_score\": 1.7\x7d" = .ok m ∧
        jget m "incident_detected" =
          some ((jget [("confidence_score", JValue.jnum ⟨17, 10⟩)] "incident_detected").getD
            (.jbool false)) ∧
        jget m "confidence_score" =
          some (.jnum (pymax PyNum.zero (pymin PyNum.one ⟨17, 10⟩))) ∧
        PyNum.le PyNum.zero (pymax PyNum.zero (pymin PyNum.one ⟨17, 10⟩)) = true ∧
        PyNum.le (pymax PyNum.zero (pymin PyNum.one ⟨17, 10⟩)) PyNum.one = true) ∧
      (∃ m2, parse_analysis_result "\x7b\"confidence_score\": 1.7\x7d" = .ok m2 ∧
        (∀ sec ∈ anaSections, jget m2 sec =
          some ((jget [("confidence_score", JValue.jnum ⟨17, 10⟩)] sec).getD anaIncomplete)) ∧
        jget m2 "confidence_score" =
          some ((jget [("confidence_score", JValue.jnum ⟨17, 10⟩)] "confidence_score").getD
            (.jnum ⟨5, 10⟩)))) :=
  ⟨by decide,
    validator_backfill_contract "\x7b\"confidence_score\": 1.7\x7d"
      [("confidence_score", .jnum ⟨17, 10⟩)] ⟨17, 10⟩ (by decide) (by decide)⟩

/-! Claim C2 — what the validators absorb and what escapes them. -/

/-- Any error escaping the absorb clause is neither a decode error nor a
`ValueError` — those two classes are always converted to the failure
mapping. -/
theorem absorbDV_error (att : Except PyErr JObj) (fail : String → JObj) (e : PyErr)
    (h : absorbDV att fail = .error e) :
    (∀ m, e ≠ .jsonDecodeError m) ∧ (∀ m, e ≠ .valueError m) := by
  cases att with
  | ok r => exact absurd h (by simp [absorbDV])
  | error e0 =>
    cases e0 with
    | jsonDecodeError m => exact absurd h (by simp [absorbDV])
    | valueError m => exact absurd h (by simp [absorbDV])
    | typeError m =>
      have he : e = .typeError m := (Except.error.inj h).symm
      subst he
      exact ⟨(fun m2 hm => nomatch hm), (fun m2 hm => nomatch hm)⟩
    | otherError m =>
      have he : e = .otherError m := (Except.error.inj h).symm
      subst he
      exact ⟨(fun m2 hm => nomatch hm), (fun m2 hm => nomatch hm)⟩

/-- C2, counterexample: the validator can raise — a parseable object whose
confidence value is `null` makes the clamp's `float()` raise `TypeError`,
which the `except (JSONDecodeError, ValueError)` clause does not catch;
and on a non-JSON text with surrounding whitespace the failure mapping's
`raw_response` is the trimmed text, not the raw text verbatim. -/
theorem validator_raises_counterexample :
    parse_detection_result "\x7b\"confidence_score\": null\x7d" =
      .error (.typeError "float() argument must be a string or a real number, not NoneType") ∧
    parse_detection_result " not json " =
      .ok (detParseFailure "Expecting value" "not json") ∧
    ("not json" ≠ " not json ") := by
  refine ⟨by decide, by decide, by decide⟩

/-- C2 (amended): the validators never raise on unparseable text — a JSON
decode failure (and likewise a `ValueError` from a non-numeric confidence
string in the detection clamp) yields the canonical failure mapping, whose
`parse_error` is the non-empty message and whose `raw_response` is the
trimmed, fence-stripped text (verbatim only up to that preprocessing),
with the forced `false`/`0.0`/placeholder values; but an uncaught
exception escapes when the parsed JSON is not an object or when the
confidence value is not float-convertible (e.g. `null`) — what escapes is
never one of the two absorbed classes. -/
theorem validator_failure_contract (s : String) :
    (∀ em, json_loads (pyStrip (stripFences s)) = .error (.jsonDecodeError em) →
       parse_detection_result s = .ok (detParseFailure em (stripFences s)) ∧
       parse_analysis_result s = .ok (anaParseFailure em (stripFences s)) ∧ em ≠ "") ∧
    (∀ em o, json_loads (pyStrip (stripFences s)) = .ok (.jobj o) →
       pyFloat ((jget (backfillRequired o) "confidence_score").getD (.jnum PyNum.zero)) =
         .error (.valueError em) →
       parse_detection_result s = .ok (detParseFailure em (stripFences s))) ∧
    (∀ e, parse_detection_result s = .error e →
       (∀ m, e ≠ .jsonDecodeError m) ∧ (∀ m, e ≠ .valueError m)) ∧
    (∀ e, parse_analysis_result s = .error e →
       (∀ m, e ≠ .jsonDecodeError m) ∧ (∀ m, e ≠ .valueError m)) := by
  refine ⟨?_, ?_, ?_, ?_⟩
  · intro em h
    obtain ⟨m, hm, hne⟩ := json_loads_error_shape _ _ h
    have hem : em = m := by
      cases hm
      rfl
    refine ⟨?_, ?_, hem ▸ hne⟩
    · simp only [parse_detection_result]
      rw [h, except_bind_err]
      rfl
    · simp only [parse_analysis_result]
      rw [h, except_bind_err]
      rfl
  · intro em o h hf
    simp only [parse_detection_result]
    rw [h, except_bind_ok]
    simp only [detValidateParsed]
    rw [hf, except_bind_err]
    rfl
  · intro e h
    simp only [parse_detection_result] at h
    exact absorbDV_error _ _ _ h
  · intro e h
    simp only [parse_analysis_result] at h
    exact absorbDV_error _ _ _ h

/-- C2 witness: a concrete non-JSON response text with the concrete decode
failure, and a concrete object whose confidence is a non-numeric string. -/
theorem validator_failure_contract_witness :
    json_loads (pyStrip (stripFences "model overloaded")) =
      .error (.jsonDecodeError "Expecting value") ∧
    (parse_detection_result "model overloaded" =
        .ok (detParseFailure "Expecting value" "model overloaded") ∧
      parse_analysis_result "model overloaded" =
        .ok (anaParseFailure "Expecting value" "model overloaded") ∧ "Expecting value" ≠ "") ∧
    parse_detection_result "\x7b\"confidence_score\": \"high\"\x7d" =
      .ok (detParseFailure "could not convert string to float: high"
        "\x7b\"confidence_score\": \"high\"\x7d") :=
  ⟨by decide,
    (validator_failure_contract "model overloaded").1 "Expecting value" (by decide),
    (validator_failure_contract "\x7b\"confidence_score\": \"high\"\x7d").2.1
      "could not convert string to float: high"
      [("confidence_score", .jstr "high")] (by decide) (by decide)⟩

/-! Claim C4 — the entity builder's contract. -/

/-- Hashability of a JSON-shaped Python value (lists/dicts are not). -/
def hashableJV : JValue → Prop
  | .jarr _ => False
  | .jobj _ => False
  | _ => True

/-- A `mapM` over elements on which the function succeeds returns `ok`. -/
theorem mapM_ok_of_all (f : JValue → Except PyErr String) :
    ∀ (xs : List JValue), (∀ u ∈ xs, ∃ str, f u = .ok str) →
      ∃ l, xs.mapM f = .ok l
  | [], _ => ⟨[], rfl⟩
  | a :: as2, h => by
    obtain ⟨str, hstr⟩ := h a (List.mem_cons_self a as2)
    obtain ⟨l, hl⟩ := mapM_ok_of_all f as2 (fun u hu => h u (List.mem_cons_of_mem a hu))
    refine ⟨str :: l, ?_⟩
    rw [List.mapM_cons, hstr, hl]
    rfl

/-- C4: on a validated detection result whose optional entity fields are
well-typed where present, the builder returns an Incident whose id has the
fixed format, whose severity is the 4-entry table lookup of the severity
string (absent severity defaults to `medium`), whose status is `new`,
whose title/description fall back to the fixed texts when absent, and
whose metadata carries the detection confidence, recommended actions,
urgency reasons, and the producing agent's name. -/
theorem build_incident_contract (r : JObj) (dateStr : String) (micro : Nat) (now : Time)
    (hsev : ∀ v, jget r "severity" = some v → hashableJV v)
    (htitle : ∀ v, jget r "title" = some v → ∃ str, v = .jstr str)
    (hdesc : ∀ v, jget r "description" = some v → ∃ str, v = .jstr str)
    (hserv : ∀ v, jget r "affected_service" = some v → v = .jnull ∨ ∃ str, v = .jstr str)
    (hcomp : ∀ v, jget r "affected_components" = some v →
      ∃ xs, v = .jarr xs ∧ ∀ u ∈ xs, ∃ str, u = .jstr str)
    (htags : ∀ v, jget r "tags" = some v →
      ∃ xs, v = .jarr xs ∧ ∀ u ∈ xs, ∃ str, u = .jstr str) :
    ∃ i, create_incident_from_detection r dateStr micro now = .ok i ∧
      i.id = "INC-" ++ dateStr ++ "-" ++ pad6 micro ∧
      i.status = .new ∧
      (jget r "severity" = none → i.severity = .medium) ∧
      (∀ s2, jget r "severity" = some (.jstr s2) → i.severity = severityTable s2) ∧
      (jget r "title" = none → i.title = "Detected Incident") ∧
      (∀ s2, jget r "title" = some (.jstr s2) → i.title = s2) ∧
      (jget r "description" = none → i.description = "Incident detected by AI analysis") ∧
      (∀ s2, jget r "description" = some (.jstr s2) → i.description = s2) ∧
      jget i.metadata "detection_confidence" =
        some ((jget r "confidence_score").getD (.jnum PyNum.zero)) ∧
      jget i.metadata "recommended_actions" =
        some ((jget r "recommended_actions").getD (.jarr [])) ∧
      jget i.metadata "urgency_reasons" =
        some ((jget r "urgency_reasons").getD (.jarr [])) ∧
      jget i.metadata "detected_by" = some (.jstr "IncidentDetectionAgent") := by
  have hsevEq : ∃ sv, severityMapGet ((jget r "severity").getD (.jstr "medium")) = .ok sv ∧
      (jget r "severity" = none → sv = .medium) ∧
      (∀ s2, jget r "severity" = some (.jstr s2) → sv = severityTable s2) := by
    cases hg : jget r "severity" with
    | none =>
      exact ⟨.medium, rfl, (fun _ => rfl), (fun s2 hs2 => nomatch hs2)⟩
    | some v =>
      have hv := hsev v hg
      cases v with
      | jarr xs => exact hv.elim
      | jobj fs => exact hv.elim
      | jnull =>
        exact ⟨.medium, rfl, (fun h => nomatch h),
          (fun s2 hs2 => absurd (Option.some.inj hs2) (by simp))⟩
      | jbool b =>
        exact ⟨.medium, rfl, (fun h => nomatch h),
          (fun s2 hs2 => absurd (Option.some.inj hs2) (by simp))⟩
      | jnum q =>
        exact ⟨.medium, rfl, (fun h => nomatch h),
          (fun s2 hs2 => absurd (Option.some.inj hs2) (by simp))⟩
      | jstr s2 =>
        refine ⟨severityTable s2, rfl, (fun h => nomatch h), ?_⟩
        intro s3 hs3
        rw [JValue.jstr.inj (Option.some.inj hs3)]
  have htitleEq : ∃ tv, reqStrField r "title" "Detected Incident" = .ok tv ∧
      (jget r "title" = none → tv = "Detected Incident") ∧
      (∀ s2, jget r "title" = some (.jstr s2) → tv = s2) := by
    cases hg : jget r "title" with
    | none =>
      exact ⟨"Detected Incident", by simp [reqStrField, hg], (fun _ => rfl),
        (fun s2 hs2 => nomatch hs2)⟩
    | some v =>
      obtain ⟨str, rfl⟩ := htitle v hg
      exact ⟨str, by simp [reqStrField, hg], (fun h => nomatch h),
        (fun s2 hs2 => JValue.jstr.inj (Option.some.inj hs2))⟩
  have hdescEq : ∃ dv, reqStrField r "description" "Incident detected by AI analysis" = .ok dv ∧
      (jget r "description" = none → dv = "Incident detected by AI analysis") ∧
      (∀ s2, jget r "description" = some (.jstr s2) → dv = s2) := by
    cases hg : jget r "description" with
    | none =>
      exact ⟨"Incident detected by AI analysis", by simp [reqStrField, hg], (fun _ => rfl),
        (fun s2 hs2 => nomatch hs2)⟩
    | some v =>
      obtain ⟨str, rfl⟩ := hdesc v hg
      exact ⟨str, by simp [reqStrField, hg], (fun h => nomatch h),
        (fun s2 hs2 => JValue.jstr.inj (Option.some.inj hs2))⟩
  have hservEq : ∃ av, optStrField r "affected_service" = .ok av := by
    cases hg : jget r "affected_service" with
    | none => exact ⟨none, by simp [optStrField, hg]⟩
    | some v =>
      rcases hserv v hg with hn | ⟨str, rfl⟩
      · subst hn
        exact ⟨none, by simp [optStrField, hg]⟩
      · exact ⟨some str, by simp [optStrField, hg]⟩
  have hcompEq : ∃ cv, strListField r "affected_components" = .ok cv := by
    cases hg : jget r "affected_components" with
    | none => exact ⟨[], by simp [strListField, hg]⟩
    | some v =>
      obtain ⟨xs, rfl, hall⟩ := hcomp v hg
      obtain ⟨l, hl⟩ := mapM_ok_of_all (strItemField "affected_components") xs
        (fun u hu => by
          obtain ⟨str, rfl⟩ := hall u hu
          exact ⟨str, rfl⟩)
      refine ⟨l, ?_⟩
      simp only [strListField, hg]
      exact hl
  have htagsEq : ∃ gv, strListField r "tags" = .ok gv := by
    cases hg : jget r "tags" with
    | none => exact ⟨[], by simp [strListField, hg]⟩
    | some v =>
      obtain ⟨xs, rfl, hall⟩ := htags v hg
      obtain ⟨l, hl⟩ := mapM_ok_of_all (strItemField "tags") xs
        (fun u hu => by
          obtain ⟨str, rfl⟩ := hall u hu
          exact ⟨str, rfl⟩)
      refine ⟨l, ?_⟩
      simp only [strListField, hg]
      exact hl
  obtain ⟨sv, hsv, hsvn, hsvs⟩ := hsevEq
  obtain ⟨tv, htv, htvn, htvs⟩ := htitleEq
  obtain ⟨dv, hdv, hdvn, hdvs⟩ := hdescEq
  obtain ⟨av, hav⟩ := hservEq
  obtain ⟨cv, hcv⟩ := hcompEq
  obtain ⟨gv, hgv⟩ := htagsEq
  refine
    ⟨{ id := "INC-" ++ dateStr ++ "-" ++ pad6 micro,
       title := tv,
       description := dv,
       severity := sv,
       status := .new,
       created_at := now,
       updated_at := now,
       affected_service := av,
       affected_components := cv,
       tags := gv,
       metadata :=
         [("detection_confidence", (jget r "confidence_score").getD (.jnum PyNum.zero)),
          ("recommended_actions", (jget r "recommended_actions").getD (.jarr [])),
          ("urgency_reasons", (jget r "urgency_reasons").getD (.jarr [])),
          ("detected_by", .jstr "IncidentDetectionAgent")] },
      ?_, rfl, rfl, hsvn, hsvs, htvn, htvs, hdvn, hdvs,
      (by simp [jget]), (by simp [jget]), (by simp [jget]), (by simp [jget])⟩
  simp only [create_incident_from_detection]
  rw [hsv, except_bind_ok, htv, except_bind_ok, hdv, except_bind_ok, hav, except_bind_ok,
    hcv, except_bind_ok, hgv, except_bind_ok, except_pure_def]

/-- The validated result used by the C4 witness (P6-style: unknown
severity string, explicit title). -/
def buildWitnessResult : JObj :=
  [("severity", .jstr "unknown-value"), ("title", .jstr "API Errors"),
   ("confidence_score", .jnum ⟨9, 10⟩)]

/-- C4 witness: building from a concrete result with severity
`"unknown-value"` yields severity `medium`, status `new` and the given
title. -/
theorem build_incident_contract_witness :
    (∃ i, create_incident_from_detection buildWitnessResult "20240101" 42 0 = .ok i ∧
      i.severity = severityTable "unknown-value" ∧ i.status = .new ∧ i.title = "API Errors" ∧
      jget i.metadata "detection_confidence" = some (.jnum ⟨9, 10⟩)) ∧
    severityTable "unknown-value" = .medium := by
  refine ⟨?_, by decide⟩
  obtain ⟨i, hok, _hid, hst, _hn, hs, _htn, hts, _, _, hm, _, _, _⟩ :=
    build_incident_contract buildWitnessResult "20240101" 42 0
      (fun v hv => by cases hv; trivial)
      (fun v hv => by cases hv; exact ⟨"API Errors", rfl⟩)
      (fun v hv => nomatch hv)
      (fun v hv => nomatch hv)
      (fun v hv => nomatch hv)
      (fun v hv => nomatch hv)
  exact ⟨i, hok, hs "unknown-value" rfl, hst, hts "API Errors" rfl, hm⟩

/-! Claim C1 — the orchestrator boundary catches every raised fault. -/

/-- C1: the orchestrators are total functions into envelopes (no raised
fault reaches the caller in this embedding), and whenever the pipeline
body raises — at any stage, in particular when the external LLM call
itself fails — the returned envelope carries the fault message as its
non-null `error`, the failure-shaped result (detection) or null analysis,
a null entity, the timestamp, and the agent name. -/
theorem orchestrator_never_propagates
    (input : InputData) (ctx : Option Ctx) (llm : Except PyErr String)
    (dateStr : String) (micro : Nat) (now : Time) (procAt : String)
    (inputA : AnalysisInput) (e : PyErr) :
    (detectionBody input ctx llm dateStr micro now = .error e →
       detectionProcess input ctx llm dateStr micro now procAt =
         { error := some e.message,
           detection_result :=
             [("incident_detected", .jbool false), ("confidence_score", .jnum PyNum.zero)],
           incident := none, processed_at := procAt, agent := "IncidentDetectionAgent" }) ∧
    (llm = .error e → detectionBody input ctx llm dateStr micro now = .error e) ∧
    (analysisBody inputA ctx llm = .error e →
       analysisProcess inputA ctx llm procAt =
         { error := some e.message, analysis := none, analyzed_at := procAt,
           agent := "IncidentAnalysisAgent", incident_id := extract_incident_id inputA }) ∧
    (llm = .error e → analysisBody inputA ctx llm = .error e) := by
  refine ⟨?_, ?_, ?_, ?_⟩
  · intro h
    unfold detectionProcess
    rw [h]
  · intro h
    subst h
    rfl
  · intro h
    unfold analysisProcess
    rw [h]
  · intro h
    subst h
    rfl

/-- C1 witness: a timed-out model call yields the error envelope in both
variants (E2E scenario C). -/
theorem orchestrator_never_propagates_witness :
    detectionBody (.str "logs") none (.error (.otherError "Request timed out")) "20240101" 1 0 =
      .error (.otherError "Request timed out") ∧
    detectionProcess (.str "logs") none (.error (.otherError "Request timed out"))
        "20240101" 1 0 "T0" =
      { error := some "Request timed out",
        detection_result :=
          [("incident_detected", .jbool false), ("confidence_score", .jnum PyNum.zero)],
        incident := none, processed_at := "T0", agent := "IncidentDetectionAgent" } ∧
    analysisProcess (.other "inc") none (.error (.otherError "Request timed out")) "T0" =
      { error := some "Request timed out", analysis := none, analyzed_at := "T0",
        agent := "IncidentAnalysisAgent", incident_id := none } :=
  ⟨by decide,
    (orchestrator_never_propagates (.str "logs") none (.error (.otherError "Request timed out"))
      "20240101" 1 0 "T0" (.other "inc") (.otherError "Request timed out")).1 (by decide),
    (orchestrator_never_propagates (.str "logs") none (.error (.otherError "Request timed out"))
      "20240101" 1 0 "T0" (.other "inc") (.otherError "Request timed out")).2.2.1 (by decide)⟩

/-! Claim C10 — entity building tests truthiness, not equality with true. -/

/-- C10: the detection orchestrator builds an entity exactly when the
validated result's `incident_detected` value is truthy under Python
truthiness (any non-empty string such as `"false"`, non-zero number or
non-empty collection counts as detected); for a missing key, `false`,
`0`, `null` or any other falsy value the envelope's incident is null. -/
theorem truthiness_entity_decision
    (input : InputData) (ctx : Option Ctx) (s : String)
    (dateStr : String) (micro : Nat) (now : Time) (procAt : String) (r : JObj)
    (hparse : parse_detection_result s = .ok r) :
    (∀ i, pyTruthy ((jget r "incident_detected").getD (.jbool false)) = true →
       create_incident_from_detection r dateStr micro now = .ok i →
       detectionProcess input ctx (.ok s) dateStr micro now procAt =
         { error := none, detection_result := r, incident := some i,
           processed_at := procAt, agent := "IncidentDetectionAgent" }) ∧
    (pyTruthy ((jget r "incident_detected").getD (.jbool false)) = false →
       detectionProcess input ctx (.ok s) dateStr micro now procAt =
         { error := none, detection_result := r, incident := none,
           processed_at := procAt, agent := "IncidentDetectionAgent" }) := by
  constructor
  · intro i htruthy hcreate
    unfold detectionProcess detectionBody
    rw [except_bind_ok, hparse, except_bind_ok, htruthy]
    simp only [if_true]
    rw [hcreate, except_bind_ok, except_pure_def, except_bind_ok, except_pure_def]
  · intro hfalsy
    unfold detectionProcess detectionBody
    rw [except_bind_ok, hparse, except_bind_ok, hfalsy]
    simp only [Bool.false_eq_true, if_false]
    rw [except_pure_def, except_bind_ok, except_pure_def]

/-- The validated mapping for a response whose `incident_detected` is the
truthy JSON string `"false"`. -/
def truthyDetResult : JObj :=
  [("incident_detected", .jstr "false"), ("confidence_score", .jnum ⟨0, 1⟩)]

/-- The entity built from `truthyDetResult` at date `20240101`,
microsecond 7, instant 0. -/
def truthyIncident : Incident :=
  { id := "INC-20240101-000007", title := "Detected Incident",
    description := "Incident detected by AI analysis", severity := .medium,
    status := .new, created_at := 0, updated_at := 0,
    metadata :=
      [("detection_confidence", .jnum ⟨0, 1⟩),
       ("recommended_actions", .jarr []),
       ("urgency_reasons", .jarr []),
       ("detected_by", .jstr "IncidentDetectionAgent")] }

/-- C10 witness: the JSON string `"false"` is truthy, so an entity is
built; the JSON boolean `false` is falsy, so the incident field is null. -/
theorem truthiness_entity_decision_witness :
    parse_detection_result "\x7b\"incident_detected\": \"false\"\x7d" = .ok truthyDetResult ∧
    pyTruthy ((jget truthyDetResult "incident_detected").getD (.jbool false)) = true ∧
    detectionProcess (.str "d") none (.ok "\x7b\"incident_detected\": \"false\"\x7d")
        "20240101" 7 0 "T0" =
      { error := none, detection_result := truthyDetResult, incident := some truthyIncident,
        processed_at := "T0", agent := "IncidentDetectionAgent" } ∧
    detectionProcess (.str "d") none (.ok "\x7b\"incident_detected\": false\x7d")
        "20240101" 7 0 "T0" =
      { error := none,
        detection_result := [("incident_detected", .jbool false), ("confidence_score", .jnum ⟨0, 1⟩)],
        incident := none, processed_at := "T0", agent := "IncidentDetectionAgent" } :=
  ⟨by decide, by decide,
    (truthiness_entity_decision (.str "d") none "\x7b\"incident_detected\": \"false\"\x7d"
        "20240101" 7 0 "T0" truthyDetResult (by decide)).1 truthyIncident (by decide) (by decide),
    (truthiness_entity_decision (.str "d") none "\x7b\"incident_detected\": false\x7d"
        "20240101" 7 0 "T0"
        [("incident_detected", .jbool false), ("confidence_score", .jnum ⟨0, 1⟩)]
        (by decide)).2 (by decide)⟩

/-- C9 witness: concrete mutator calls with an advanced clock. -/
theorem mutators_refresh_updated_at_witness :
    (dupTagIncident.update_status .resolved (some 7) 99).updated_at = 99 ∧
    (dupTagIncident.add_tag "fresh" 99).updated_at = 99 ∧
    dupTagIncident.updated_at < (dupTagIncident.update_status .resolved (some 7) 99).updated_at :=
  ⟨(mutators_refresh_updated_at dupTagIncident .resolved (some 7) "fresh" "J" "S" 99).1,
    (mutators_refresh_updated_at dupTagIncident .resolved (some 7) "fresh" "J" "S" 99).2.2.2.1
      (by decide),
    (mutators_refresh_updated_at dupTagIncident .resolved (some 7) "fresh" "J" "S" 99).2.2.2.2.2
      (by decide)⟩

end OpsAiX
